import Mathlib

/-!
# Management-port provisioning (go-controller/pkg/ovn/management-port.go)

A shallow embedding of `configureManagementPort` and `CreateManagementPort`.

* Go strings are byte sequences (`GoString`).
* Every interaction with the outside (the `ip` tool run through `exec.Command`,
  `util.RunOVNNbctl`, `util.RunOVSVsctl`, `util.GenerateMac`,
  `util.GetK8sClusterRouter`) is an operation of a `World` over an arbitrary
  state type; the run records each call it issues, with its result, in a trace,
  and each `logrus.Errorf` in a list of log entries.
* The pure library functions the file consumes and that are not part of it
  (`net.ParseCIDR`, `IP.String`, `IPMask.Size`, `strings.ToLower`, `util.NextIP`,
  `config.MTU`) are the fields of a `Lib`; `goLib` is the IPv4 instance.
-/

namespace OvnManagementPort

/-! ## Strings, errors, addresses -/

/-- A Go string: an immutable sequence of bytes. -/
abbrev GoString := List UInt8

/-- The bytes (UTF-8) of a string literal of the source. -/
def lit (s : String) : GoString := s.toUTF8.data.toList

/-- The double-quote character, written `"\""` in the source. -/
def dquote : GoString := [0x22]

/-- Decimal rendering of a non-negative integer, as `%d` and `uitoa` produce it. -/
def itoa (n : Nat) : GoString := lit (toString n)

/-- A Go `error` value, identified by its message. -/
structure GoError where
  msg : GoString
deriving DecidableEq, Repr

/-- The type `net.IP`: a slice of bytes, of length 4 or 16 when well-formed. -/
abbrev IP := List UInt8

/-- The type `net.IPMask`. -/
abbrev IPMask := List UInt8

/-- The type `net.IPNet`. -/
structure IPNet where
  IP : IP
  Mask : IPMask
deriving DecidableEq, Repr

/-- The pure functions and constants that management-port.go consumes from
other packages. -/
structure Lib where
  /-- Go `net.ParseCIDR`: the address as written, and the network it lies in. -/
  ParseCIDR : GoString → Except GoError (IP × IPNet)
  /-- Go `IP.String`. -/
  IPString : IP → GoString
  /-- Go `IPMask.Size`: the number of leading ones, and the number of bits. -/
  MaskSize : IPMask → Nat × Nat
  /-- Go `strings.ToLower`. -/
  ToLower : GoString → GoString
  /-- The helper `util.NextIP`. -/
  NextIP : IP → IP
  /-- The constant `config.MTU`. -/
  MTU : Nat

/-! ## The outside world, traces and logs -/

/-- The external operations, over a state `σ` of the outside world. -/
structure World (σ : Type) where
  /-- The call `exec.Command(name, args...).CombinedOutput()`. -/
  CombinedOutput : GoString → List GoString → σ → (GoString × Option GoError) × σ
  /-- The call `util.RunOVNNbctl(args...)`: stdout, stderr, error. -/
  RunOVNNbctl : List GoString → σ → (GoString × GoString × Option GoError) × σ
  /-- The call `util.RunOVSVsctl(args...)`: stdout, stderr, error. -/
  RunOVSVsctl : List GoString → σ → (GoString × GoString × Option GoError) × σ
  /-- The call `util.GenerateMac()`. -/
  GenerateMac : σ → GoString × σ
  /-- The call `util.GetK8sClusterRouter()`. -/
  GetK8sClusterRouter : σ → (GoString × Option GoError) × σ

/-- An external call, as issued. -/
inductive Call where
  | command (name : GoString) (args : List GoString)
  | ovnNbctl (args : List GoString)
  | ovsVsctl (args : List GoString)
  | generateMac
  | getK8sClusterRouter
deriving DecidableEq, Repr

/-- A call together with what it returned. -/
structure Event where
  call : Call
  stdout : GoString
  stderr : GoString
  err : Option GoError
deriving DecidableEq, Repr

/-- An argument of a log line. -/
inductive LogArg where
  | str (s : GoString)
  | err (e : Option GoError)
deriving DecidableEq, Repr

/-- A `logrus.Errorf` call: the format and its arguments. -/
structure LogEntry where
  format : String
  args : List LogArg
deriving DecidableEq, Repr

/-- The state of a run: the outside world, the calls issued so far (oldest
first) and the log lines written so far. -/
structure Run (σ : Type) where
  world : σ
  trace : List Event
  logs : List LogEntry

/-- A computation over a run. -/
def Prog (σ α : Type) : Type := Run σ → α × Run σ

instance instMonadProg {σ : Type} : Monad (Prog σ) where
  pure a := fun r => (a, r)
  bind m f := fun r => match m r with
    | (a, r1) => f a r1

/-- Run a command through `exec.Command(...).CombinedOutput()`, discarding nothing. -/
def execCombinedOutput {σ : Type} (W : World σ) (name : GoString) (args : List GoString) :
    Prog σ (GoString × Option GoError) := fun r =>
  match W.CombinedOutput name args r.world with
  | ((out, err), s) =>
    ((out, err), { r with world := s, trace := r.trace ++ [⟨Call.command name args, out, [], err⟩] })

/-- Run `util.RunOVNNbctl`. -/
def RunOVNNbctl {σ : Type} (W : World σ) (args : List GoString) :
    Prog σ (GoString × GoString × Option GoError) := fun r =>
  match W.RunOVNNbctl args r.world with
  | ((out, serr, err), s) =>
    ((out, serr, err), { r with world := s, trace := r.trace ++ [⟨Call.ovnNbctl args, out, serr, err⟩] })

/-- Run `util.RunOVSVsctl`. -/
def RunOVSVsctl {σ : Type} (W : World σ) (args : List GoString) :
    Prog σ (GoString × GoString × Option GoError) := fun r =>
  match W.RunOVSVsctl args r.world with
  | ((out, serr, err), s) =>
    ((out, serr, err), { r with world := s, trace := r.trace ++ [⟨Call.ovsVsctl args, out, serr, err⟩] })

/-- Run `util.GenerateMac`. -/
def GenerateMac {σ : Type} (W : World σ) : Prog σ GoString := fun r =>
  match W.GenerateMac r.world with
  | (mac, s) =>
    (mac, { r with world := s, trace := r.trace ++ [⟨Call.generateMac, mac, [], none⟩] })

/-- Run `util.GetK8sClusterRouter`. -/
def GetK8sClusterRouter {σ : Type} (W : World σ) : Prog σ (GoString × Option GoError) := fun r =>
  match W.GetK8sClusterRouter r.world with
  | ((out, err), s) =>
    ((out, err), { r with world := s, trace := r.trace ++ [⟨Call.getK8sClusterRouter, out, [], err⟩] })

/-- The call `logrus.Errorf(format, args...)`. -/
def logrusErrorf {σ : Type} (format : String) (args : List LogArg) : Prog σ Unit := fun r =>
  ((), { r with logs := r.logs ++ [⟨format, args⟩] })

/-! ## management-port.go -/

/-- The function `configureManagementPort` (lines 14-42). -/
def configureManagementPort {σ : Type} (W : World σ)
    (_nodeName clusterSubnet routerIP interfaceName interfaceIP : GoString) :
    Prog σ (Option GoError) := do
  -- Up the interface.
  let (_, err) ← execCombinedOutput W (lit "ip") [lit "link", lit "set", interfaceName, lit "up"]
  if err ≠ none then
    return err
  else
  -- The interface may already exist, in which case delete the routes and IP.
  let (_, err) ← execCombinedOutput W (lit "ip") [lit "addr", lit "flush", lit "dev", interfaceName]
  if err ≠ none then
    return err
  else
  -- Assign IP address to the internal interface.
  let (_, err) ← execCombinedOutput W (lit "ip") [lit "addr", lit "add", interfaceIP, lit "dev", interfaceName]
  if err ≠ none then
    return err
  else
  -- Flush the route for the entire subnet (in case it was added before).
  let (_, err) ← execCombinedOutput W (lit "ip") [lit "route", lit "flush", clusterSubnet]
  if err ≠ none then
    return err
  else
  -- Create a route for the entire subnet.
  let (_, err) ← execCombinedOutput W (lit "ip") [lit "route", lit "add", clusterSubnet, lit "via", routerIP]
  return err

/-- The interface name chosen at lines 112-117, from the lower-cased node name. -/
def interfaceNameOf (nodeName : GoString) : GoString :=
  if nodeName.length > 11 then
    lit "k8s-" ++ nodeName.take 11
  else
    lit "k8s-" ++ nodeName

/-- The function `CreateManagementPort` (lines 48-184). -/
def CreateManagementPort {σ : Type} (L : Lib) (W : World σ)
    (nodeName localSubnet clusterSubnet : GoString) : Prog σ (Option GoError) := do
  -- Create a router port and provide it the first address in the 'local_subnet'.
  match L.ParseCIDR localSubnet with
  | .error err =>
    return some ⟨lit "Failed to parse local subnet " ++ lit "<nil>" ++ lit " : " ++ err.msg⟩
  | .ok (ip, localSubnetNet) =>
  let ip := L.NextIP ip
  let n := (L.MaskSize localSubnetNet.Mask).1
  let routerIPMask := L.IPString ip ++ lit "/" ++ itoa n
  let routerIP := L.IPString ip
  let nodeName := L.ToLower nodeName

  let (routerMac, stderr, err) ← RunOVNNbctl W
    [lit "--if-exist", lit "get", lit "logical_router_port", lit "rtos-" ++ nodeName, lit "mac"]
  if err ≠ none then
    logrusErrorf "Failed to get logical router port,stderr: %q, error: %v" [.str stderr, .err err]
    return err
  else
  let mut routerMac := routerMac

  if routerMac = [] then
    routerMac ← GenerateMac W
    let (clusterRouter, err) ← GetK8sClusterRouter W
    if err ≠ none then
      return err
    else

    let (_, stderr, err) ← RunOVNNbctl W
      [lit "--may-exist", lit "lrp-add", clusterRouter, lit "rtos-" ++ nodeName, routerMac, routerIPMask]
    if err ≠ none then
      logrusErrorf "Failed to add logical port to router, stderr: %q, error: %v" [.str stderr, .err err]
      return err

  -- Create a logical switch and set its subnet.
  let (stdout, stderr, err) ← RunOVNNbctl W
    [lit "--", lit "--may-exist", lit "ls-add", nodeName, lit "--", lit "set", lit "logical_switch",
      nodeName, lit "other-config:subnet=" ++ localSubnet, lit "external-ids:gateway_ip=" ++ routerIPMask]
  if err ≠ none then
    logrusErrorf "Failed to create a logical switch %v, stdout: %q, stderr: %q, error: %v"
      [.str nodeName, .str stdout, .str stderr, .err err]
    return err
  else

  -- Connect the switch to the router.
  let (stdout, stderr, err) ← RunOVNNbctl W
    [lit "--", lit "--may-exist", lit "lsp-add", nodeName, lit "stor-" ++ nodeName, lit "--", lit "set",
      lit "logical_switch_port", lit "stor-" ++ nodeName, lit "type=router",
      lit "options:router-port=rtos-" ++ nodeName, lit "addresses=" ++ dquote ++ routerMac ++ dquote]
  if err ≠ none then
    logrusErrorf "Failed to add logical port to switch, stdout: %q, stderr: %q, error: %v"
      [.str stdout, .str stderr, .err err]
    return err
  else

  -- Make sure br-int is created.
  let (stdout, stderr, err) ← RunOVSVsctl W [lit "--", lit "--may-exist", lit "add-br", lit "br-int"]
  if err ≠ none then
    logrusErrorf "Failed to create br-int, stdout: %q, stderr: %q, error: %v"
      [.str stdout, .str stderr, .err err]
    return err
  else

  -- Create a OVS internal interface.
  let interfaceName := interfaceNameOf nodeName

  let (stdout, stderr, err) ← RunOVSVsctl W
    [lit "--", lit "--may-exist", lit "add-port", lit "br-int", interfaceName, lit "--", lit "set",
      lit "interface", interfaceName, lit "type=internal", lit "mtu_request=" ++ itoa L.MTU,
      lit "external-ids:iface-id=k8s-" ++ nodeName]
  if err ≠ none then
    logrusErrorf "Failed to add port to br-int, stdout: %q, stderr: %q, error: %v"
      [.str stdout, .str stderr, .err err]
    return err
  else
  let (macAddress, stderr, err) ← RunOVSVsctl W
    [lit "--if-exists", lit "get", lit "interface", interfaceName, lit "mac_in_use"]
  if err ≠ none then
    logrusErrorf "Failed to get mac address of ovn-k8s-master, stderr: %q, error: %v"
      [.str stderr, .err err]
    return err
  else
  if macAddress = [] then
    return some ⟨lit "Failed to get mac address of ovn-k8s-master"⟩
  else

  -- Create the OVN logical port.
  let ip := L.NextIP ip
  let portIP := L.IPString ip
  let portIPMask := portIP ++ lit "/" ++ itoa n
  let (stdout, stderr, err) ← RunOVNNbctl W
    [lit "--", lit "--may-exist", lit "lsp-add", nodeName, lit "k8s-" ++ nodeName, lit "--",
      lit "lsp-set-addresses", lit "k8s-" ++ nodeName, macAddress ++ lit " " ++ portIP]
  if err ≠ none then
    logrusErrorf "Failed to add logical port to switch, stdout: %q, stderr: %q, error: %v"
      [.str stdout, .str stderr, .err err]
    return err
  else
  let err ← configureManagementPort W nodeName clusterSubnet routerIP interfaceName portIPMask
  if err ≠ none then
    return err
  else

  -- Add the load_balancer to the switch.
  let (k8sClusterLbTCP, stderr, err) ← RunOVNNbctl W
    [lit "--data=bare", lit "--no-heading", lit "--columns=_uuid", lit "find", lit "load_balancer",
      lit "external_ids:k8s-cluster-lb-tcp=yes"]
  if err ≠ none then
    logrusErrorf "Failed to get k8sClusterLbTCP, stderr: %q, error: %v" [.str stderr, .err err]
    return err
  else
  if k8sClusterLbTCP = [] then
    return some ⟨lit "Failed to get k8sClusterLbTCP"⟩
  else

  let (stdout, stderr, err) ← RunOVNNbctl W
    [lit "set", lit "logical_switch", nodeName, lit "load_balancer=" ++ k8sClusterLbTCP]
  if err ≠ none then
    logrusErrorf "Failed to set logical switch %v's loadbalancer, stdout: %q, stderr: %q, error: %v"
      [.str nodeName, .str stdout, .str stderr, .err err]
    return err
  else

  let (k8sClusterLbUDP, stderr, err) ← RunOVNNbctl W
    [lit "--data=bare", lit "--no-heading", lit "--columns=_uuid", lit "find", lit "load_balancer",
      lit "external_ids:k8s-cluster-lb-udp=yes"]
  if err ≠ none then
    logrusErrorf "Failed to get k8sClusterLbUDP, stderr: %q, error: %v" [.str stderr, .err err]
    return err
  else
  if k8sClusterLbUDP = [] then
    return some ⟨lit "Failed to get k8sClusterLbUDP"⟩
  else

  let (stdout, stderr, err) ← RunOVNNbctl W
    [lit "add", lit "logical_switch", nodeName, lit "load_balancer", k8sClusterLbUDP]
  if err ≠ none then
    logrusErrorf "Failed to add logical switch %v's loadbalancer, stdout: %q, stderr: %q, error: %v"
      [.str nodeName, .str stdout, .str stderr, .err err]
    return err
  else

  return none

/-! ## The library functions, for IPv4 -/

/-- Go `net.dtoi`: the decimal number at the start of `s`, the number of bytes it
takes, and whether there is one (a number of 0xFFFFFF or more is refused). -/
def dtoiLoop : GoString → Nat → Nat → Nat × Nat × Bool
  | [], n, i => (n, i, true)
  | c :: rest, n, i =>
    if 0x30 ≤ c.toNat ∧ c.toNat ≤ 0x39 then
      let n1 := n * 10 + (c.toNat - 0x30)
      if n1 ≥ 0xFFFFFF then (0xFFFFFF, i, false) else dtoiLoop rest n1 (i + 1)
    else (n, i, true)

/-- Go `net.dtoi`. -/
def dtoi (s : GoString) : Nat × Nat × Bool :=
  match dtoiLoop s 0 0 with
  | (n, i, ok) =>
    if !ok then (n, i, false)
    else if i = 0 then (0, 0, false)
    else (n, i, true)

/-- The constant `v4InV6Prefix`. -/
def v4InV6Prefix : List UInt8 := [0, 0, 0, 0, 0, 0, 0, 0, 0, 0, 0xff, 0xff]

/-- Go `net.IPv4`: the 16-byte form of an IPv4 address. -/
def IPv4 (a b c d : UInt8) : IP := v4InV6Prefix ++ [a, b, c, d]

/-- The loop of Go `net.parseIPv4`: `k` octets are still to be read, `first` says
whether the next one is the first. An octet of several digits that starts with `0` is
refused, as Go does since version 1.17. -/
def parseIPv4Loop : Nat → Bool → GoString → List UInt8 → Option (List UInt8)
  | 0, _, s, acc => if s.length ≠ 0 then none else some acc
  | k + 1, first, s, acc =>
    if s.length = 0 then none
    else
      match (if first then some s else
              match s with
              | c :: rest => if c ≠ 0x2e then none else some rest
              | [] => none) with
      | none => none
      | some s1 =>
        match dtoi s1 with
        | (n, c, ok) =>
          if !ok ∨ n > 0xFF then none
          else if c > 1 ∧ s1.head? = some 0x30 then none
          else parseIPv4Loop k false (s1.drop c) (acc ++ [UInt8.ofNat n])

/-- Go `net.parseIPv4`. -/
def parseIPv4 (s : GoString) : Option IP :=
  match parseIPv4Loop 4 true s [] with
  | some [a, b, c, d] => some (IPv4 a b c d)
  | _ => none

/-- Go `net.CIDRMask`, for `bits = 32`; `none` is the nil mask. -/
def CIDRMaskLoop : Nat → Nat → List UInt8
  | 0, _ => []
  | l + 1, n =>
    if n ≥ 8 then 0xff :: CIDRMaskLoop l (n - 8)
    else (UInt8.ofNat (0xff - (0xff >>> n))) :: CIDRMaskLoop l 0

/-- Go `net.CIDRMask`. -/
def CIDRMask (ones bits : Nat) : Option IPMask :=
  if bits ≠ 32 ∧ bits ≠ 128 then none
  else if ones > bits then none
  else some (CIDRMaskLoop (bits / 8) ones)

/-- Go `IP.To4`; `none` is the nil address. -/
def To4 (ip : IP) : Option IP :=
  if ip.length = 4 then some ip
  else if ip.length = 16 ∧ ip.take 12 = v4InV6Prefix then some (ip.drop 12)
  else none

/-- Go `IP.Mask`, for an address and a mask that both have an IPv4 form. -/
def IPMaskApply (ip : IP) (mask : IPMask) : Option IP :=
  let mask := if mask.length = 16 ∧ ip.length = 4 ∧ (mask.take 12).all (· == 0xff) then mask.drop 12 else mask
  let ip := if mask.length = 4 ∧ ip.length = 16 ∧ ip.take 12 = v4InV6Prefix then ip.drop 12 else ip
  if ip.length ≠ mask.length then none
  else some (List.zipWith (· &&& ·) ip mask)

/-- Go `net.ParseCIDR`, for the IPv4 notation `a.b.c.d/n` only: a subnet in IPv6
notation, which Go accepts, is refused here, so what is proved with this function says
nothing about IPv6 subnets. -/
def ParseCIDR (s : GoString) : Except GoError (IP × IPNet) :=
  let bad : Except GoError (IP × IPNet) := .error ⟨lit "invalid CIDR address: " ++ s⟩
  match s.indexOf? 0x2f with
  | none => bad
  | some i =>
    let addr := s.take i
    let mask := s.drop (i + 1)
    match parseIPv4 addr with
    | none => bad
    | some ip =>
      match dtoi mask with
      | (n, j, ok) =>
        if !ok ∨ j ≠ mask.length ∨ n > 32 then bad
        else
          match CIDRMask n 32 with
          | none => bad
          | some m =>
            match IPMaskApply ip m with
            | none => bad
            | some netIP => .ok (ip, ⟨netIP, m⟩)


/-- The inner loop of Go `simpleMaskLength`: the leading one bits of a byte, and what
is left of the byte once they are shifted out. -/
def leadingOnes : Nat → UInt8 → Nat × UInt8
  | 0, v => (0, v)
  | k + 1, v =>
    if v &&& 0x80 ≠ 0 then ((leadingOnes k (v <<< 1)).1 + 1, (leadingOnes k (v <<< 1)).2)
    else (0, v)

/-- Go `simpleMaskLength`; `none` is the result -1. -/
def simpleMaskLength : IPMask → Option Nat
  | [] => some 0
  | v :: rest =>
    if v = 0xff then (simpleMaskLength rest).map (· + 8)
    else
      match leadingOnes 8 v with
      | (c, v1) => if v1 ≠ 0 then none else if rest.all (· == 0) then some c else none

/-- Go `IPMask.Size`. -/
def IPMaskSize (m : IPMask) : Nat × Nat :=
  match simpleMaskLength m with
  | none => (0, 0)
  | some n => (n, m.length * 8)

/-- A hexadecimal digit, in lower case. -/
def hexDigit (n : Nat) : UInt8 :=
  if n < 10 then UInt8.ofNat (0x30 + n) else UInt8.ofNat (0x61 + (n - 10))

/-- Go `hexString`: two hexadecimal digits for each byte. -/
def hexString (b : List UInt8) : GoString :=
  b.flatMap fun x => [hexDigit (x.toNat / 16), hexDigit (x.toNat % 16)]

/-- Go `appendHex`: a 16-bit group in hexadecimal, without leading zeros. -/
def appendHex (v : Nat) : GoString :=
  if v / 4096 ≠ 0 then
    [hexDigit (v / 4096 % 16), hexDigit (v / 256 % 16), hexDigit (v / 16 % 16), hexDigit (v % 16)]
  else if v / 256 ≠ 0 then [hexDigit (v / 256 % 16), hexDigit (v / 16 % 16), hexDigit (v % 16)]
  else if v / 16 ≠ 0 then [hexDigit (v / 16 % 16), hexDigit (v % 16)]
  else [hexDigit (v % 16)]

/-- The eight 16-bit groups of a 16-byte address. -/
def groups : List UInt8 → List Nat
  | hi :: lo :: rest => (hi.toNat * 256 + lo.toNat) :: groups rest
  | _ => []

/-- The number of zero groups at the start of the list. -/
def zeroRunLength : List Nat → Nat
  | 0 :: rest => zeroRunLength rest + 1
  | _ => 0

/-- The first longest run of at least two zero groups among the groups from position
`i` on: its start and its end, given the best run found so far. -/
def longestZeroRun : List Nat → Nat → Option (Nat × Nat) → Option (Nat × Nat)
  | [], _, best => best
  | g :: rest, i, best =>
    let l := zeroRunLength (g :: rest)
    let better :=
      match best with
      | none => decide (2 ≤ l)
      | some (a, b) => decide (2 ≤ l ∧ b - a < l)
    longestZeroRun rest (i + 1) (if better then some (i, i + l) else best)

/-- The text of an IPv6 address: the groups in hexadecimal separated by colons, the
first longest run of two or more zero groups written `::`. -/
def ip6String (ip : IP) : GoString :=
  match longestZeroRun (groups ip) 0 none with
  | none => List.intercalate (lit ":") ((groups ip).map appendHex)
  | some (a, b) =>
    List.intercalate (lit ":") (((groups ip).take a).map appendHex) ++ lit "::"
      ++ List.intercalate (lit ":") (((groups ip).drop b).map appendHex)

/-- Go `IP.String`: `<nil>` for the empty address, `?` and the bytes in hexadecimal for
an address of a length other than 4 and 16, the dotted notation for an address with an
IPv4 form, the IPv6 text otherwise. -/
def IPString (ip : IP) : GoString :=
  if ip.length = 0 then lit "<nil>"
  else if ip.length ≠ 4 ∧ ip.length ≠ 16 then lit "?" ++ hexString ip
  else
    match To4 ip with
    | some [a, b, c, d] =>
      itoa a.toNat ++ lit "." ++ itoa b.toNat ++ lit "." ++ itoa c.toNat ++ lit "." ++ itoa d.toNat
    | _ => ip6String ip

/-- The value of a big-endian sequence of bytes. -/
def ipToInt (ip : List UInt8) : Nat := ip.foldl (fun acc b => acc * 256 + b.toNat) 0

/-- The `len` low-order bytes of `v`, big-endian. -/
def intToIP : Nat → Nat → List UInt8
  | 0, _ => []
  | k + 1, v => UInt8.ofNat (v / 256 ^ k % 256) :: intToIP k v

/-- Modelled from the spec: `util.NextIP` is not part of management-port.go. The
spec describes it as giving "the first address after" its argument, "the address
immediately after": the address whose value is one more, in the 4-byte form for an
IPv4 address (past the last address it wraps to the first). -/
def NextIP (ip : IP) : IP :=
  match To4 ip with
  | some p4 => intToIP 4 (ipToInt p4 + 1)
  | none => intToIP ip.length (ipToInt ip + 1)

/-- Go `strings.ToLower`, on ASCII strings: the letters `A`-`Z` become `a`-`z`, every
other byte is kept. On a string with bytes outside ASCII Go also lower-cases the letters
of other alphabets and replaces invalid UTF-8; this function does not, so it stands for
`strings.ToLower` on ASCII node names only. -/
def ToLower (s : GoString) : GoString :=
  s.map fun b => if 0x41 ≤ b.toNat ∧ b.toNat ≤ 0x5a then b + 0x20 else b

/-- The library, for IPv4 subnets and ASCII node names, with an MTU of 1400. -/
def goLib : Lib where
  ParseCIDR := ParseCIDR
  IPString := IPString
  MaskSize := IPMaskSize
  ToLower := ToLower
  NextIP := NextIP
  MTU := 1400

/-! ## A scripted world -/

/-- A world without state of its own: a call fails when `fails` gives it an error;
otherwise it succeeds, and the reads return the given texts. -/
def scriptedWorld (routerMac newMac clusterRouter ifaceMac lbTCP lbUDP : GoString)
    (fails : Call → Option GoError) : World Unit where
  CombinedOutput name args _ := (([], fails (.command name args)), ())
  RunOVNNbctl args _ :=
    match fails (.ovnNbctl args) with
    | some e => (([], lit "error", some e), ())
    | none =>
      ((if args.head? = some (lit "--if-exist") then routerMac
        else if args.getLast? = some (lit "external_ids:k8s-cluster-lb-tcp=yes") then lbTCP
        else if args.getLast? = some (lit "external_ids:k8s-cluster-lb-udp=yes") then lbUDP
        else [], [], none), ())
  RunOVSVsctl args _ :=
    match fails (.ovsVsctl args) with
    | some e => (([], lit "error", some e), ())
    | none => ((if args.head? = some (lit "--if-exists") then ifaceMac else [], [], none), ())
  GenerateMac _ := (newMac, ())
  GetK8sClusterRouter _ :=
    match fails .getK8sClusterRouter with
    | some e => (([], some e), ())
    | none => ((clusterRouter, none), ())

/-- A run that starts in world state `s`, with nothing issued or logged yet. -/
def start {σ : Type} (s : σ) : Run σ := ⟨s, [], []⟩

/-! ## Notions used to state the properties -/

/-- The host commands of `configureManagementPort`, in the order of the source:
the arguments given to `ip`. -/
def hostCommands (clusterSubnet routerIP interfaceName interfaceIP : GoString) :
    List (List GoString) :=
  [ [lit "link", lit "set", interfaceName, lit "up"],
    [lit "addr", lit "flush", lit "dev", interfaceName],
    [lit "addr", lit "add", interfaceIP, lit "dev", interfaceName],
    [lit "route", lit "flush", clusterSubnet],
    [lit "route", lit "add", clusterSubnet, lit "via", routerIP] ]

/-- The event of running `ip args` in world state `s`. -/
def ipEvent {σ : Type} (W : World σ) (args : List GoString) (s : σ) : Event :=
  ⟨Call.command (lit "ip") args, (W.CombinedOutput (lit "ip") args s).1.1, [],
    (W.CombinedOutput (lit "ip") args s).1.2⟩

/-- Issue the `ip` commands one after the other, whatever they return: the events, and
the world state at the end. -/
def issueAll {σ : Type} (W : World σ) : List (List GoString) → σ → List Event × σ
  | [], s => ([], s)
  | args :: rest, s =>
    ((ipEvent W args s) :: (issueAll W rest (W.CombinedOutput (lit "ip") args s).2).1,
      (issueAll W rest (W.CombinedOutput (lit "ip") args s).2).2)

/-- The lookup of the MAC of the router port `rtos-<node>` (line 69). -/
def routerPortLookup (node : GoString) : Call :=
  .ovnNbctl [lit "--if-exist", lit "get", lit "logical_router_port", lit "rtos-" ++ node, lit "mac"]

/-- The read of the interface's `mac_in_use` (line 127). -/
def macInUseRead (interfaceName : GoString) : Call :=
  .ovsVsctl [lit "--if-exists", lit "get", lit "interface", interfaceName, lit "mac_in_use"]

/-- The lookup of the load balancer tagged `tag` (lines 153 and 168). -/
def loadBalancerFind (tag : GoString) : Call :=
  .ovnNbctl [lit "--data=bare", lit "--no-heading", lit "--columns=_uuid", lit "find",
    lit "load_balancer", tag]

/-- The call is one of the steps that follow the read of `mac_in_use`: a host command,
the creation of the host-facing logical port `k8s-<node>`, a load-balancer lookup, or a
binding of a load balancer to the switch. -/
def followsMacRead (node : GoString) (c : Call) : Prop :=
  (∃ name args, c = .command name args)
  ∨ (∃ a, c = .ovnNbctl [lit "--", lit "--may-exist", lit "lsp-add", node, lit "k8s-" ++ node,
      lit "--", lit "lsp-set-addresses", lit "k8s-" ++ node, a])
  ∨ c = loadBalancerFind (lit "external_ids:k8s-cluster-lb-tcp=yes")
  ∨ c = loadBalancerFind (lit "external_ids:k8s-cluster-lb-udp=yes")
  ∨ (∃ a, c = .ovnNbctl [lit "set", lit "logical_switch", node, a])
  ∨ (∃ a, c = .ovnNbctl [lit "add", lit "logical_switch", node, lit "load_balancer", a])

/-- The call is one of the steps that follow the lookup of the TCP load balancer: the
set of the switch's `load_balancer`, the UDP lookup, or the UDP add. -/
def followsTCPFind (node : GoString) (c : Call) : Prop :=
  (∃ a, c = .ovnNbctl [lit "set", lit "logical_switch", node, a])
  ∨ c = loadBalancerFind (lit "external_ids:k8s-cluster-lb-udp=yes")
  ∨ (∃ a, c = .ovnNbctl [lit "add", lit "logical_switch", node, lit "load_balancer", a])

/-- The creation of the switch-to-router port `stor-<node>` with `a` as its last
argument, the `addresses=...` setting (line 98). -/
def routerFacingPortAdd (node a : GoString) : Call :=
  .ovnNbctl [lit "--", lit "--may-exist", lit "lsp-add", node, lit "stor-" ++ node, lit "--",
    lit "set", lit "logical_switch_port", lit "stor-" ++ node, lit "type=router",
    lit "options:router-port=rtos-" ++ node, a]

/-- The call neither generates a MAC, nor resolves the cluster router, nor is an
`lrp-add`; and if it creates `stor-<node>`, the addresses it sets are exactly `m`. -/
def ReusesRouterMac (node m : GoString) (c : Call) : Prop :=
  c ≠ .generateMac ∧ c ≠ .getK8sClusterRouter
  ∧ (∀ r p mac net, c ≠ .ovnNbctl [lit "--may-exist", lit "lrp-add", r, p, mac, net])
  ∧ (∀ a, c = routerFacingPortAdd node a → a = lit "addresses=" ++ dquote ++ m ++ dquote)

/-- If the call is an `lrp-add`, the MAC it gives is `m`; if it creates `stor-<node>`,
the addresses it sets are exactly `m`. -/
def UsesRouterMac (node m : GoString) (c : Call) : Prop :=
  (∀ r p mac net, c = .ovnNbctl [lit "--may-exist", lit "lrp-add", r, p, mac, net] → mac = m)
  ∧ (∀ a, c = routerFacingPortAdd node a → a = lit "addresses=" ++ dquote ++ m ++ dquote)


/-! ## The sequence of calls of a run -/

/-- The answers of the outside world that later calls of a run carry: the cluster
router when the MAC of the router port is generated (`none` when the port's MAC is
reused), the MAC of the router port, the `mac_in_use` of the interface, and the two load
balancers. -/
structure Answers where
  clusterRouter : Option GoString
  routerMac : GoString
  macAddress : GoString
  lbTCP : GoString
  lbUDP : GoString

/-- The calls that settle the router port (lines 69-86): the lookup alone when its MAC
is reused; otherwise the lookup, the MAC generator, the resolution of the cluster router
and the `lrp-add` with the generated MAC and the router address with its mask. -/
def routerPortCalls (node routerIP bits : GoString) (a : Answers) : List Call :=
  match a.clusterRouter with
  | none => [routerPortLookup node]
  | some clusterRouter =>
    [routerPortLookup node, .generateMac, .getK8sClusterRouter,
      .ovnNbctl [lit "--may-exist", lit "lrp-add", clusterRouter, lit "rtos-" ++ node, a.routerMac,
        routerIP ++ lit "/" ++ bits]]

/-- The calls after the router port is settled (lines 88-178), in the order of the
source: the switch with its subnet and gateway, the port `stor-<node>` with the MAC of
the router port, the bridge, the interface, the read of its MAC, the port `k8s-<node>`
with that MAC and the management-port address, the five host commands, and the two load
balancers. -/
def switchCalls (node localSubnet clusterSubnet routerIP portIP bits mtu interfaceName : GoString)
    (a : Answers) : List Call :=
  [ .ovnNbctl [lit "--", lit "--may-exist", lit "ls-add", node, lit "--", lit "set",
      lit "logical_switch", node, lit "other-config:subnet=" ++ localSubnet,
      lit "external-ids:gateway_ip=" ++ (routerIP ++ lit "/" ++ bits)],
    routerFacingPortAdd node (lit "addresses=" ++ dquote ++ a.routerMac ++ dquote),
    .ovsVsctl [lit "--", lit "--may-exist", lit "add-br", lit "br-int"],
    .ovsVsctl [lit "--", lit "--may-exist", lit "add-port", lit "br-int", interfaceName, lit "--",
      lit "set", lit "interface", interfaceName, lit "type=internal", lit "mtu_request=" ++ mtu,
      lit "external-ids:iface-id=k8s-" ++ node],
    macInUseRead interfaceName,
    .ovnNbctl [lit "--", lit "--may-exist", lit "lsp-add", node, lit "k8s-" ++ node, lit "--",
      lit "lsp-set-addresses", lit "k8s-" ++ node, a.macAddress ++ lit " " ++ portIP],
    .command (lit "ip") [lit "link", lit "set", interfaceName, lit "up"],
    .command (lit "ip") [lit "addr", lit "flush", lit "dev", interfaceName],
    .command (lit "ip") [lit "addr", lit "add", portIP ++ lit "/" ++ bits, lit "dev", interfaceName],
    .command (lit "ip") [lit "route", lit "flush", clusterSubnet],
    .command (lit "ip") [lit "route", lit "add", clusterSubnet, lit "via", routerIP],
    loadBalancerFind (lit "external_ids:k8s-cluster-lb-tcp=yes"),
    .ovnNbctl [lit "set", lit "logical_switch", node, lit "load_balancer=" ++ a.lbTCP],
    loadBalancerFind (lit "external_ids:k8s-cluster-lb-udp=yes"),
    .ovnNbctl [lit "add", lit "logical_switch", node, lit "load_balancer", a.lbUDP] ]

/-- The calls of a complete run, in order. -/
def provisioningCalls (node localSubnet clusterSubnet routerIP portIP bits mtu interfaceName :
    GoString) (a : Answers) : List Call :=
  routerPortCalls node routerIP bits a
    ++ switchCalls node localSubnet clusterSubnet routerIP portIP bits mtu interfaceName a

/-- The calls of the trace, in the order they were issued. -/
def calls (t : List Event) : List Call := t.map Event.call

/-- The call is one of the three reads whose empty answer ends the run: the read of the
interface's `mac_in_use` and the lookups of the TCP and UDP load balancers. -/
def isCheckedRead (interfaceName : GoString) (c : Call) : Prop :=
  c = macInUseRead interfaceName
  ∨ c = loadBalancerFind (lit "external_ids:k8s-cluster-lb-tcp=yes")
  ∨ c = loadBalancerFind (lit "external_ids:k8s-cluster-lb-udp=yes")

/-- The run with result `res` and trace `t` follows the sequence `full`: the calls
issued are an initial segment of `full`, all of `full` when the run returns no error;
the run goes on (returns no error) when its last call succeeded, unless that call is a
checked read with an empty answer; and at least one call is issued. -/
def FollowsCalls (full : List Call) (interfaceName : GoString) (res : Option GoError)
    (t : List Event) : Prop :=
  calls t <+: full
  ∧ (res = none → calls t = full)
  ∧ (∀ e, t.getLast? = some e → e.err = none →
      (isCheckedRead interfaceName e.call → e.stdout ≠ []) → res = none)
  ∧ t ≠ []

/-- Invariant of a run: the calls issued so far are `cs` and the last event is `last`. -/
def Issued (cs : List Call) (last : Option Event) (t : List Event) : Prop :=
  calls t = cs ∧ t.getLast? = last

/-- The value of the IPv4 form of an address (0 for an address that has none). -/
def addrValue (ip : IP) : Nat :=
  match To4 ip with
  | some p4 => ipToInt p4
  | none => 0

/-- The network address of the IPv4 block with an `n`-bit prefix that holds the
address of value `v`: `v` with its `32 - n` host bits cleared. -/
def networkValue (v n : Nat) : Nat := v - v % 2 ^ (32 - n)

/-- The broadcast address of that block: the network address with all host bits set. -/
def broadcastValue (v n : Nat) : Nat := networkValue v n + 2 ^ (32 - n) - 1

/-- The address of value `a` lies in the block. -/
def inSubnet (v n a : Nat) : Prop := networkValue v n ≤ a ∧ a ≤ broadcastValue v n

/-- The `k`-th address after the network address of the block, in 4-byte form: the
first host address for `k = 1`, the second for `k = 2`. -/
def hostAddress (v n k : Nat) : IP := intToIP 4 (networkValue v n + k)

/-! ## Worlds used as examples -/

/-- A world in which every call succeeds: the router port has no MAC yet, the
generator gives `0a:00:00:00:00:01`, the interface gets `aa:bb:cc:dd:ee:ff`. -/
def quietWorld : World Unit :=
  scriptedWorld [] (lit "0a:00:00:00:00:01") (lit "router-1") (lit "aa:bb:cc:dd:ee:ff")
    (lit "lb-tcp") (lit "lb-udp") (fun _ => none)

/-- As `quietWorld`, but the router port already has the MAC `0a:00:00:00:00:07`. -/
def provisionedWorld : World Unit :=
  scriptedWorld (lit "0a:00:00:00:00:07") (lit "0a:00:00:00:00:01") (lit "router-1")
    (lit "aa:bb:cc:dd:ee:ff") (lit "lb-tcp") (lit "lb-udp") (fun _ => none)

/-- As `quietWorld`, but the interface reports no `mac_in_use`. -/
def noMacWorld : World Unit :=
  scriptedWorld [] (lit "0a:00:00:00:00:01") (lit "router-1") [] (lit "lb-tcp") (lit "lb-udp")
    (fun _ => none)

/-- As `quietWorld`, but no load balancer is tagged `k8s-cluster-lb-tcp=yes`. -/
def noLoadBalancerWorld : World Unit :=
  scriptedWorld [] (lit "0a:00:00:00:00:01") (lit "router-1") (lit "aa:bb:cc:dd:ee:ff") []
    (lit "lb-udp") (fun _ => none)

/-- As `quietWorld`, but the `ip` command with arguments `args` fails with
"exit status 1". -/
def hostFailureWorld (args : List GoString) : World Unit :=
  scriptedWorld [] (lit "0a:00:00:00:00:01") (lit "router-1") (lit "aa:bb:cc:dd:ee:ff")
    (lit "lb-tcp") (lit "lb-udp")
    (fun c => if c = .command (lit "ip") args then some ⟨lit "exit status 1"⟩ else none)

/-! ## A model of the external state

The control-plane database, the virtual switch and the host kernel, reduced to the
tables, columns and commands that `CreateManagementPort` uses. The tools `ovn-nbctl`,
`ovs-vsctl` and `ip` and the functions of the package `util` are not part of
management-port.go: what follows is modelled from the specification and from the
documented meaning of the commands. A command that fails leaves the state as it was. -/

/-- A row of `Logical_Router_Port`. -/
structure RouterPort where
  router : GoString
  mac : GoString
  networks : GoString

/-- A row of `Logical_Switch`: `other_config:subnet`, `external_ids:gateway_ip` and the
set `load_balancer`. -/
structure Switch where
  subnet : Option GoString
  gatewayIP : Option GoString
  loadBalancer : List GoString

/-- A row of `Logical_Switch_Port`. -/
structure SwitchPort where
  switch : GoString
  type : GoString
  routerPort : GoString
  addresses : GoString

/-- A port of the virtual switch with its interface of the same name. -/
structure Interface where
  bridge : GoString
  type : GoString
  mtuRequest : GoString
  ifaceID : GoString
  macInUse : GoString

/-- Modelled from the spec: the external state, that is the control-plane database, the
virtual switch, the host kernel and the MAC generator. -/
structure ExtState where
  /-- The logical routers that exist. -/
  routers : GoString → Bool
  /-- The router tagged `k8s-cluster-router=yes`, if there is one. -/
  clusterRouter : Option GoString
  routerPorts : GoString → Option RouterPort
  switches : GoString → Option Switch
  switchPorts : GoString → Option SwitchPort
  /-- The load balancer tagged `k8s-cluster-lb-tcp=yes` (empty when there is none). -/
  lbTCP : GoString
  /-- The load balancer tagged `k8s-cluster-lb-udp=yes` (empty when there is none). -/
  lbUDP : GoString
  bridges : GoString → Bool
  interfaces : GoString → Option Interface
  /-- The MAC the virtual switch gives to a new internal interface of a given name. -/
  assignedMac : GoString → GoString
  linkUp : GoString → Bool
  /-- The addresses of each host interface. -/
  addrs : GoString → List GoString
  /-- The host routes: destination and gateway. -/
  routes : List (GoString × GoString)
  /-- The number of MACs generated so far. -/
  macCounter : Nat

/-- The text after the prefix `p` of `s`, when `s` starts with `p`. -/
def stripPrefix (p s : GoString) : Option GoString :=
  if s.take p.length = p then some (s.drop p.length) else none

/-- The error of a command that exits with status 1. -/
def exitFailure : GoError := ⟨lit "exit status 1"⟩

/-- The `n`-th MAC of the generator: `0a:` followed by `n` in decimal, so never empty. -/
def freshMac (n : Nat) : GoString := 0x30 :: 0x61 :: 0x3a :: itoa n

/-- The command `--if-exist get logical_router_port <port> mac`: the MAC of the port,
empty when the port does not exist. -/
def routerPortMac (port : GoString) (s : ExtState) : GoString :=
  match s.routerPorts port with
  | some rp => rp.mac
  | none => []

/-- The command `--may-exist lrp-add <router> <port> <mac> <network>`: the router must
exist. A port of that name is left as it is when it is on that router with that MAC and
that network, and is an error otherwise (`port already exists with mac ...`); a new
port needs a MAC. -/
def lrpAdd (router port mac network : GoString) (s : ExtState) : Option ExtState :=
  if s.routers router = true then
    match s.routerPorts port with
    | some rp =>
      if rp.router = router ∧ rp.mac = mac ∧ rp.networks = network then some s else none
    | none =>
      if mac ≠ [] then
        some { s with
          routerPorts := Function.update s.routerPorts port (some ⟨router, mac, network⟩) }
      else none
  else none

/-- The command `-- --may-exist ls-add <sw> -- set logical_switch <sw2>
other-config:subnet=<x> external-ids:gateway_ip=<y>`: the switch `sw` is created if it
does not exist, then the two keys of `sw2` are set. -/
def lsAddSet (sw sw2 subnetArg gatewayArg : GoString) (s : ExtState) : Option ExtState :=
  match stripPrefix (lit "other-config:subnet=") subnetArg,
      stripPrefix (lit "external-ids:gateway_ip=") gatewayArg with
  | some x, some y =>
    let table := Function.update s.switches sw (some ((s.switches sw).getD ⟨none, none, []⟩))
    match table sw2 with
    | some row =>
      some { s with
        switches := Function.update table sw2 (some { row with subnet := some x, gatewayIP := some y }) }
    | none => none
  | _, _ => none

/-- Whether `--may-exist lsp-add <sw> <port>` is accepted: the switch must exist, and a
port of that name must be on that switch. -/
def lspAddAllowed (sw port : GoString) (s : ExtState) : Bool :=
  (s.switches sw).isSome && (s.switchPorts port).all fun lp => decide (lp.switch = sw)

/-- The table of switch ports after `--may-exist lsp-add <sw> <port>`: a port of that
name is left as it is, otherwise a new one is added. -/
def lspAdd (sw port : GoString) (s : ExtState) : GoString → Option SwitchPort :=
  Function.update s.switchPorts port (some ((s.switchPorts port).getD ⟨sw, [], [], []⟩))

/-- The command `-- --may-exist lsp-add <sw> <port> -- set logical_switch_port <port2>
type=<t> options:router-port=<rp> addresses=<a>`. -/
def lspAddSetRouter (sw port port2 typeArg optionArg addressesArg : GoString) (s : ExtState) :
    Option ExtState :=
  match stripPrefix (lit "type=") typeArg, stripPrefix (lit "options:router-port=") optionArg,
      stripPrefix (lit "addresses=") addressesArg with
  | some t, some rp, some a =>
    if lspAddAllowed sw port s = true then
      match lspAdd sw port s port2 with
      | some lp =>
        some { s with
          switchPorts := Function.update (lspAdd sw port s) port2
            (some { lp with type := t, routerPort := rp, addresses := a }) }
      | none => none
    else none
  | _, _, _ => none

/-- The command `-- --may-exist lsp-add <sw> <port> -- lsp-set-addresses <port2> <a>`. -/
def lspAddSetAddresses (sw port port2 addresses : GoString) (s : ExtState) : Option ExtState :=
  if lspAddAllowed sw port s = true then
    match lspAdd sw port s port2 with
    | some lp =>
      some { s with
        switchPorts := Function.update (lspAdd sw port s) port2
          (some { lp with addresses := addresses }) }
    | none => none
  else none

/-- The command `find load_balancer <tag>` with `--data=bare --no-heading
--columns=_uuid`: the load balancer with that tag, empty when there is none. -/
def findLoadBalancer (tag : GoString) (s : ExtState) : GoString :=
  if tag = lit "external_ids:k8s-cluster-lb-tcp=yes" then s.lbTCP
  else if tag = lit "external_ids:k8s-cluster-lb-udp=yes" then s.lbUDP
  else []

/-- The command `set logical_switch <sw> load_balancer=<v>`: the set becomes `{v}`. -/
def setLoadBalancer (sw arg : GoString) (s : ExtState) : Option ExtState :=
  match stripPrefix (lit "load_balancer=") arg, s.switches sw with
  | some v, some row =>
    some { s with switches := Function.update s.switches sw (some { row with loadBalancer := [v] }) }
  | _, _ => none

/-- The command `add logical_switch <sw> load_balancer <v>`: `v` joins the set. -/
def addLoadBalancer (sw v : GoString) (s : ExtState) : Option ExtState :=
  match s.switches sw with
  | some row =>
    let balancers := if v ∈ row.loadBalancer then row.loadBalancer else row.loadBalancer ++ [v]
    some { s with
      switches := Function.update s.switches sw (some { row with loadBalancer := balancers }) }
  | none => none

/-- The command `-- --may-exist add-port <br> <port> -- set interface <iface>
type=<t> mtu_request=<m> external-ids:iface-id=<id>`: the bridge must exist; a new port
gets an interface with the MAC the switch assigns; a port of that name on another bridge
is an error. -/
def addPortSet (br port iface typeArg mtuArg idArg : GoString) (s : ExtState) : Option ExtState :=
  match stripPrefix (lit "type=") typeArg, stripPrefix (lit "mtu_request=") mtuArg,
      stripPrefix (lit "external-ids:iface-id=") idArg with
  | some t, some m, some id =>
    if s.bridges br = true
        ∧ (s.interfaces port).all (fun i => decide (i.bridge = br)) = true then
      let table := Function.update s.interfaces port
        (some ((s.interfaces port).getD ⟨br, [], [], [], s.assignedMac port⟩))
      match table iface with
      | some i =>
        some { s with
          interfaces := Function.update table iface
            (some { i with type := t, mtuRequest := m, ifaceID := id }) }
      | none => none
    else none
  | _, _, _ => none

/-- The command `--if-exists get interface <iface> mac_in_use`. -/
def interfaceMac (iface : GoString) (s : ExtState) : GoString :=
  match s.interfaces iface with
  | some i => i.macInUse
  | none => []

/-- The answer of a command: its output and no error when it succeeds with the new
state, an error and the old state when it fails. -/
def reply (out : GoString) (r : Option ExtState) (s : ExtState) :
    (GoString × GoString × Option GoError) × ExtState :=
  match r with
  | some s1 => ((out, [], none), s1)
  | none => (([], lit "error", some exitFailure), s)

/-- Modelled from the spec: the tool `ovn-nbctl` behind `util.RunOVNNbctl`, for the
commands of management-port.go; any other command is an error. -/
def nbctl (args : List GoString) (s : ExtState) :
    (GoString × GoString × Option GoError) × ExtState :=
  match args with
  | [a0, a1, sw, arg] =>
    if a0 = lit "set" ∧ a1 = lit "logical_switch" then reply [] (setLoadBalancer sw arg s) s
    else reply [] none s
  | [a0, a1, a2, a3, a4] =>
    if a0 = lit "--if-exist" ∧ a1 = lit "get" ∧ a2 = lit "logical_router_port" ∧ a4 = lit "mac"
    then reply (routerPortMac a3 s) (some s) s
    else if a0 = lit "add" ∧ a1 = lit "logical_switch" ∧ a3 = lit "load_balancer"
    then reply [] (addLoadBalancer a2 a4 s) s
    else reply [] none s
  | [a0, a1, a2, a3, a4, a5] =>
    if a0 = lit "--may-exist" ∧ a1 = lit "lrp-add" then reply [] (lrpAdd a2 a3 a4 a5 s) s
    else if a0 = lit "--data=bare" ∧ a1 = lit "--no-heading" ∧ a2 = lit "--columns=_uuid"
        ∧ a3 = lit "find" ∧ a4 = lit "load_balancer"
    then reply (findLoadBalancer a5 s) (some s) s
    else reply [] none s
  | [a0, a1, a2, sw, port, a5, a6, port2, addresses] =>
    if a0 = lit "--" ∧ a1 = lit "--may-exist" ∧ a2 = lit "lsp-add" ∧ a5 = lit "--"
        ∧ a6 = lit "lsp-set-addresses"
    then reply [] (lspAddSetAddresses sw port port2 addresses s) s
    else reply [] none s
  | [a0, a1, a2, sw, a4, a5, a6, sw2, subnetArg, gatewayArg] =>
    if a0 = lit "--" ∧ a1 = lit "--may-exist" ∧ a2 = lit "ls-add" ∧ a4 = lit "--"
        ∧ a5 = lit "set" ∧ a6 = lit "logical_switch"
    then reply [] (lsAddSet sw sw2 subnetArg gatewayArg s) s
    else reply [] none s
  | [a0, a1, a2, sw, port, a5, a6, a7, port2, typeArg, optionArg, addressesArg] =>
    if a0 = lit "--" ∧ a1 = lit "--may-exist" ∧ a2 = lit "lsp-add" ∧ a5 = lit "--"
        ∧ a6 = lit "set" ∧ a7 = lit "logical_switch_port"
    then reply [] (lspAddSetRouter sw port port2 typeArg optionArg addressesArg s) s
    else reply [] none s
  | _ => reply [] none s

/-- Modelled from the spec: the tool `ovs-vsctl` behind `util.RunOVSVsctl`, for the
commands of management-port.go; any other command is an error. -/
def vsctl (args : List GoString) (s : ExtState) :
    (GoString × GoString × Option GoError) × ExtState :=
  match args with
  | [a0, a1, a2, br] =>
    if a0 = lit "--" ∧ a1 = lit "--may-exist" ∧ a2 = lit "add-br"
    then reply [] (some { s with bridges := Function.update s.bridges br true }) s
    else reply [] none s
  | [a0, a1, a2, iface, a4] =>
    if a0 = lit "--if-exists" ∧ a1 = lit "get" ∧ a2 = lit "interface" ∧ a4 = lit "mac_in_use"
    then reply (interfaceMac iface s) (some s) s
    else reply [] none s
  | [a0, a1, a2, br, port, a5, a6, a7, iface, typeArg, mtuArg, idArg] =>
    if a0 = lit "--" ∧ a1 = lit "--may-exist" ∧ a2 = lit "add-port" ∧ a5 = lit "--"
        ∧ a6 = lit "set" ∧ a7 = lit "interface"
    then reply [] (addPortSet br port iface typeArg mtuArg idArg s) s
    else reply [] none s
  | _ => reply [] none s

/-- Modelled from the spec: the host command `ip`, on success the new state. The interface of a command must
exist; `addr add` refuses an address the interface already has, `route add` a
destination that already has a route; `flush` removes whatever matches. -/
def ipCommand (args : List GoString) (s : ExtState) : Option ExtState :=
  match args with
  | [a0, a1, a2] =>
    if a0 = lit "route" ∧ a1 = lit "flush"
    then some { s with routes := s.routes.filter fun r => decide (r.1 ≠ a2) }
    else none
  | [a0, a1, a2, a3] =>
    if a0 = lit "link" ∧ a1 = lit "set" ∧ a3 = lit "up" then
      if (s.interfaces a2).isSome = true
      then some { s with linkUp := Function.update s.linkUp a2 true }
      else none
    else if a0 = lit "addr" ∧ a1 = lit "flush" ∧ a2 = lit "dev" then
      if (s.interfaces a3).isSome = true
      then some { s with addrs := Function.update s.addrs a3 [] }
      else none
    else none
  | [a0, a1, a2, a3, a4] =>
    if a0 = lit "addr" ∧ a1 = lit "add" ∧ a3 = lit "dev" then
      if (s.interfaces a4).isSome = true ∧ a2 ∉ s.addrs a4
      then some { s with addrs := Function.update s.addrs a4 (s.addrs a4 ++ [a2]) }
      else none
    else if a0 = lit "route" ∧ a1 = lit "add" ∧ a3 = lit "via" then
      if ∀ r ∈ s.routes, r.1 ≠ a2
      then some { s with routes := s.routes ++ [(a2, a4)] }
      else none
    else none
  | _ => none

/-- Modelled from the spec: the external systems as a world. `util.GenerateMac` gives
the next MAC of the generator, `util.GetK8sClusterRouter` the router tagged
`k8s-cluster-router=yes`, or an error when there is none. -/
def extWorld : World ExtState where
  CombinedOutput name args s :=
    match (if name = lit "ip" then ipCommand args s else none) with
    | some s1 => (([], none), s1)
    | none => ((lit "error", some exitFailure), s)
  RunOVNNbctl := nbctl
  RunOVSVsctl := vsctl
  GenerateMac s := (freshMac s.macCounter, { s with macCounter := s.macCounter + 1 })
  GetK8sClusterRouter s :=
    match s.clusterRouter with
    | some r => ((r, none), s)
    | none => (([], some exitFailure), s)

/-- An external state with the cluster router `router-1`, a TCP and a UDP load
balancer, and nothing else. -/
def freshState : ExtState where
  routers := fun r => decide (r = lit "router-1")
  clusterRouter := some (lit "router-1")
  routerPorts := fun _ => none
  switches := fun _ => none
  switchPorts := fun _ => none
  lbTCP := lit "lb-tcp"
  lbUDP := lit "lb-udp"
  bridges := fun _ => false
  interfaces := fun _ => none
  assignedMac := fun _ => lit "aa:bb:cc:dd:ee:ff"
  linkUp := fun _ => false
  addrs := fun _ => []
  routes := []
  macCounter := 0


/-! ## Postconditions and invariants of runs -/

/-- The postcondition `Q` holds of the result and final run of `m` started in `r`. -/
def wp {σ α : Type} (m : Prog σ α) (Q : α → Run σ → Prop) (r : Run σ) : Prop :=
  Q (m r).1 (m r).2

/-- Every event of the trace satisfies `P`. -/
def Safe (P : Event → Prop) (t : List Event) : Prop := ∀ e ∈ t, P e

/-- Invariant of a run that goes on: every call so far succeeded, the last call issued
is `c`, and `n` calls were issued. -/
def AllOk (c : Option Call) (n : Nat) (t : List Event) : Prop :=
  (∀ ev ∈ t, ev.err = none) ∧ t.getLast?.map Event.call = c ∧ t.length = n

/-- What the run promises about failures: only the last call may have failed, its
error is the result, and a run without error made 16 or 19 calls and ends with the UDP
load-balancer bind. -/
def AbortsAtFirstFailure (node : GoString) (res : Option GoError) (t : List Event) : Prop :=
  (∀ ev ∈ t.dropLast, ev.err = none)
  ∧ (∀ e, t.getLast?.bind Event.err = some e → res = some e)
  ∧ (res = none → (∀ ev ∈ t, ev.err = none)
      ∧ (t.length = 16 ∨ t.length = 19)
      ∧ ∃ id, t.getLast?.map Event.call
        = some (.ovnNbctl [lit "add", lit "logical_switch", node, lit "load_balancer", id]))

/-- Invariant before the call `c` is issued: the trace holds neither `c` nor a call
described by `F`. -/
def Before (c : Call) (F : Call → Prop) (t : List Event) : Prop :=
  ∀ e ∈ t, e.call ≠ c ∧ ¬ F e.call

/-- Invariant once the call `c` has returned a non-empty answer: no event of the trace
is `c` succeeding with an empty answer. -/
def After (c : Call) (t : List Event) : Prop :=
  ∀ e ∈ t, ¬ (e.call = c ∧ e.err = none ∧ e.stdout = [])

/-- If the call `c` succeeded with an empty answer, the result is the error `msg`, that
call is the last one, and no call described by `F` was issued. -/
def EmptyAnswerAborts (c : Call) (F : Call → Prop) (msg : GoString) (res : Option GoError)
    (t : List Event) : Prop :=
  ∀ ev ∈ t, ev.call = c → ev.err = none → ev.stdout = [] →
    res = some ⟨msg⟩ ∧ t.getLast? = some ev ∧ ∀ e ∈ t, ¬ F e.call

/-- The state holds everything `CreateManagementPort` sets up for the node: the router
port with a MAC, the switch with its subnet, gateway and load balancers, the two switch
ports, the bridge, the interface with its MAC, and the host configuration. -/
def Settled (L : Lib) (nodeName localSubnet clusterSubnet : GoString) (s : ExtState) : Prop :=
  ∃ ip net, L.ParseCIDR localSubnet = .ok (ip, net)
    ∧ (∃ rp, s.routerPorts (lit "rtos-" ++ L.ToLower nodeName) = some rp
        ∧ rp.mac ≠ []
        ∧ s.switchPorts (lit "stor-" ++ L.ToLower nodeName)
            = some ⟨L.ToLower nodeName, lit "router", lit "rtos-" ++ L.ToLower nodeName,
                dquote ++ rp.mac ++ dquote⟩)
    ∧ s.switches (L.ToLower nodeName)
        = some ⟨some localSubnet,
            some (L.IPString (L.NextIP ip) ++ lit "/" ++ itoa (L.MaskSize net.Mask).1),
            if s.lbUDP ∈ [s.lbTCP] then [s.lbTCP] else [s.lbTCP] ++ [s.lbUDP]⟩
    ∧ s.lbTCP ≠ [] ∧ s.lbUDP ≠ []
    ∧ s.bridges (lit "br-int") = true
    ∧ (∃ i, s.interfaces (interfaceNameOf (L.ToLower nodeName)) = some i
        ∧ i.bridge = lit "br-int" ∧ i.type = lit "internal" ∧ i.mtuRequest = itoa L.MTU
        ∧ i.ifaceID = lit "k8s-" ++ L.ToLower nodeName ∧ i.macInUse ≠ []
        ∧ ∃ lp, s.switchPorts (lit "k8s-" ++ L.ToLower nodeName) = some lp
          ∧ lp.switch = L.ToLower nodeName
          ∧ lp.addresses = i.macInUse ++ lit " " ++ L.IPString (L.NextIP (L.NextIP ip)))
    ∧ s.linkUp (interfaceNameOf (L.ToLower nodeName)) = true
    ∧ s.addrs (interfaceNameOf (L.ToLower nodeName))
        = [L.IPString (L.NextIP (L.NextIP ip)) ++ lit "/" ++ itoa (L.MaskSize net.Mask).1]
    ∧ (s.routes.filter fun r => decide (r.1 ≠ clusterSubnet))
          ++ [(clusterSubnet, L.IPString (L.NextIP ip))] = s.routes


set_option linter.unusedTactic false
set_option linter.unreachableTactic false
set_option linter.unusedVariables false
set_option linter.unnecessarySeqFocus false

/-! ## Reasoning about runs -/

theorem wp_iff {σ α : Type} (m : Prog σ α) (Q : α → Run σ → Prop) (r : Run σ) :
    wp m Q r ↔ Q (m r).1 (m r).2 := Iff.rfl

theorem wp_pure {σ α : Type} (a : α) (Q : α → Run σ → Prop) (r : Run σ) :
    wp (pure a : Prog σ α) Q r = Q a r := rfl

theorem wp_bind {σ α β : Type} (m : Prog σ α) (f : α → Prog σ β) (Q : β → Run σ → Prop)
    (r : Run σ) : wp (m >>= f) Q r = wp m (fun a r1 => wp (f a) Q r1) r := rfl

theorem wp_ite {σ α : Type} (c : Prop) [Decidable c] (a b : Prog σ α) (Q : α → Run σ → Prop)
    (r : Run σ) : wp (if c then a else b) Q r = ((c → wp a Q r) ∧ (¬ c → wp b Q r)) := by
  by_cases h : c <;> simp [h]

theorem wp_RunOVNNbctl {σ : Type} (W : World σ) (args : List GoString)
    (Q : GoString × GoString × Option GoError → Run σ → Prop) (r : Run σ) :
    wp (RunOVNNbctl W args) Q r =
      ∀ out serr err s t, W.RunOVNNbctl args r.world = ((out, serr, err), s) →
        t = r.trace ++ [⟨Call.ovnNbctl args, out, serr, err⟩] →
        Q (out, serr, err) ⟨s, t, r.logs⟩ := by
  refine propext ⟨fun h out serr err s t e ht => ?_, fun h => h _ _ _ _ _ rfl rfl⟩
  subst ht
  simpa [wp, RunOVNNbctl, e] using h

theorem wp_RunOVSVsctl {σ : Type} (W : World σ) (args : List GoString)
    (Q : GoString × GoString × Option GoError → Run σ → Prop) (r : Run σ) :
    wp (RunOVSVsctl W args) Q r =
      ∀ out serr err s t, W.RunOVSVsctl args r.world = ((out, serr, err), s) →
        t = r.trace ++ [⟨Call.ovsVsctl args, out, serr, err⟩] →
        Q (out, serr, err) ⟨s, t, r.logs⟩ := by
  refine propext ⟨fun h out serr err s t e ht => ?_, fun h => h _ _ _ _ _ rfl rfl⟩
  subst ht
  simpa [wp, RunOVSVsctl, e] using h

theorem wp_execCombinedOutput {σ : Type} (W : World σ) (name : GoString) (args : List GoString)
    (Q : GoString × Option GoError → Run σ → Prop) (r : Run σ) :
    wp (execCombinedOutput W name args) Q r =
      ∀ out err s t, W.CombinedOutput name args r.world = ((out, err), s) →
        t = r.trace ++ [⟨Call.command name args, out, [], err⟩] →
        Q (out, err) ⟨s, t, r.logs⟩ := by
  refine propext ⟨fun h out err s t e ht => ?_, fun h => h _ _ _ _ rfl rfl⟩
  subst ht
  simpa [wp, execCombinedOutput, e] using h

theorem wp_GenerateMac {σ : Type} (W : World σ) (Q : GoString → Run σ → Prop) (r : Run σ) :
    wp (GenerateMac W) Q r =
      ∀ mac s t, W.GenerateMac r.world = (mac, s) →
        t = r.trace ++ [⟨Call.generateMac, mac, [], none⟩] →
        Q mac ⟨s, t, r.logs⟩ := by
  refine propext ⟨fun h mac s t e ht => ?_, fun h => h _ _ _ rfl rfl⟩
  subst ht
  simpa [wp, GenerateMac, e] using h

theorem wp_GetK8sClusterRouter {σ : Type} (W : World σ)
    (Q : GoString × Option GoError → Run σ → Prop) (r : Run σ) :
    wp (GetK8sClusterRouter W) Q r =
      ∀ out err s t, W.GetK8sClusterRouter r.world = ((out, err), s) →
        t = r.trace ++ [⟨Call.getK8sClusterRouter, out, [], err⟩] →
        Q (out, err) ⟨s, t, r.logs⟩ := by
  refine propext ⟨fun h out err s t e ht => ?_, fun h => h _ _ _ _ rfl rfl⟩
  subst ht
  simpa [wp, GetK8sClusterRouter, e] using h

theorem wp_logrusErrorf {σ : Type} (format : String) (args : List LogArg)
    (Q : Unit → Run σ → Prop) (r : Run σ) :
    wp (logrusErrorf format args) Q r = Q () ⟨r.world, r.trace, r.logs ++ [⟨format, args⟩]⟩ := rfl

attribute [irreducible] wp

/-! ### Literals -/

theorem lit_k8s_length : (lit "k8s-").length = 4 := by decide


theorem lit_mayExist_ne_dataBare : (lit "--may-exist" = lit "--data=bare") = False := by
  simp only [eq_iff_iff, iff_false]; decide

theorem lit_dataBare_ne_mayExist : (lit "--data=bare" = lit "--may-exist") = False := by
  simp only [eq_iff_iff, iff_false]; decide

theorem lit_ifExist_ne_add : (lit "--if-exist" = lit "add") = False := by
  simp only [eq_iff_iff, iff_false]; decide

theorem lit_add_ne_ifExist : (lit "add" = lit "--if-exist") = False := by
  simp only [eq_iff_iff, iff_false]; decide

theorem lit_addr_ne_link : (lit "addr" = lit "link") = False := by
  simp only [eq_iff_iff, iff_false]; decide

theorem lit_link_ne_addr : (lit "link" = lit "addr") = False := by
  simp only [eq_iff_iff, iff_false]; decide

theorem lit_addr_ne_route : (lit "addr" = lit "route") = False := by
  simp only [eq_iff_iff, iff_false]; decide

theorem lit_route_ne_addr : (lit "route" = lit "addr") = False := by
  simp only [eq_iff_iff, iff_false]; decide

theorem lit_tcp_ne_udp :
    (lit "external_ids:k8s-cluster-lb-tcp=yes" = lit "external_ids:k8s-cluster-lb-udp=yes") = False := by
  simp only [eq_iff_iff, iff_false]; decide

theorem lit_udp_ne_tcp :
    (lit "external_ids:k8s-cluster-lb-udp=yes" = lit "external_ids:k8s-cluster-lb-tcp=yes") = False := by
  simp only [eq_iff_iff, iff_false]; decide

/-! ### Invariants of a trace -/

theorem Safe.empty (P : Event → Prop) : Safe P [] := by
  intro e he
  cases he

theorem Safe.snoc {P : Event → Prop} {t t1 : List Event} {e : Event} (h : Safe P t)
    (ht : t1 = t ++ [e]) (he : P e) : Safe P t1 := by
  subst ht
  intro x hx
  rcases List.mem_append.1 hx with h1 | h1
  · exact h x h1
  · rw [List.mem_singleton] at h1
    subst h1
    exact he

theorem AllOk.extend {c : Option Call} {n : Nat} {t t1 : List Event} {c1 : Call}
    {out serr : GoString} {err : Option GoError} (h : AllOk c n t)
    (ht : t1 = t ++ [⟨c1, out, serr, err⟩]) (hok : ¬ err ≠ none) : AllOk (some c1) (n + 1) t1 := by
  subst ht
  simp only [ne_eq, not_not] at hok
  subst hok
  refine ⟨?_, by simp, by simp [h.2.2]⟩
  intro ev hev
  rcases List.mem_append.1 hev with h1 | h1
  · exact h.1 ev h1
  · simp only [List.mem_singleton] at h1
    subst h1
    rfl

theorem AllOk.extend_none {c : Option Call} {n : Nat} {t t1 : List Event} {c1 : Call}
    {out serr : GoString} (h : AllOk c n t) (ht : t1 = t ++ [⟨c1, out, serr, none⟩]) :
    AllOk (some c1) (n + 1) t1 :=
  h.extend ht (by simp)

theorem AllOk.fail {node : GoString} {c : Option Call} {n : Nat} {t t1 : List Event} {c1 : Call}
    {out serr : GoString} {err : Option GoError} (h : AllOk c n t)
    (ht : t1 = t ++ [⟨c1, out, serr, err⟩]) (hfail : err ≠ none) :
    AbortsAtFirstFailure node err t1 := by
  subst ht
  refine ⟨?_, ?_, ?_⟩
  · simpa using h.1
  · intro e he
    simpa using he
  · intro he
    exact absurd he hfail

theorem AllOk.check {node : GoString} {c : Option Call} {n : Nat} {t : List Event}
    (h : AllOk c n t) (e : GoError) : AbortsAtFirstFailure node (some e) t := by
  refine ⟨?_, ?_, ?_⟩
  · intro ev hev
    exact h.1 ev (List.mem_of_mem_dropLast hev)
  · intro e1 he1
    rcases hl : t.getLast? with _ | ev
    · simp [hl] at he1
    · have := h.1 ev (List.mem_of_getLast?_eq_some hl)
      simp [hl, this] at he1
  · intro he
    simp at he

theorem AllOk.success {node id : GoString} {n : Nat} {t : List Event}
    (h : AllOk (some (.ovnNbctl [lit "add", lit "logical_switch", node, lit "load_balancer", id]))
      n t) (hn : n = 16 ∨ n = 19) : AbortsAtFirstFailure node none t := by
  refine ⟨?_, ?_, ?_⟩
  · intro ev hev
    exact h.1 ev (List.mem_of_mem_dropLast hev)
  · intro e1 he1
    rcases hl : t.getLast? with _ | ev
    · simp [hl] at he1
    · have := h.1 ev (List.mem_of_getLast?_eq_some hl)
      simp [hl, this] at he1
  · intro _
    exact ⟨h.1, by rw [h.2.2]; exact hn, id, h.2.1⟩

theorem Before.start (c : Call) (F : Call → Prop) : Before c F [] := by
  intro e he
  cases he

theorem Before.keep {c : Call} {F : Call → Prop} {t t1 : List Event} {e : Event}
    (h : Before c F t) (ht : t1 = t ++ [e]) (he : e.call ≠ c ∧ ¬ F e.call) : Before c F t1 :=
  Safe.snoc (P := fun e => e.call ≠ c ∧ ¬ F e.call) h ht he

theorem After.keep_after {c : Call} {t t1 : List Event} {e : Event}
    (h : After c t) (ht : t1 = t ++ [e]) (he : e.call ≠ c) : After c t1 :=
  Safe.snoc (P := fun e => ¬ (e.call = c ∧ e.err = none ∧ e.stdout = [])) h ht
    (fun hc => he hc.1)

/-- Goal-directed form of `Safe.snoc`: extend the invariant by one event. -/
theorem Safe.step {P : Event → Prop} {t t1 : List Event} {e : Event} {G : Prop}
    (he : P e) (k : Safe P t1 → G) : Safe P t → t1 = t ++ [e] → G :=
  fun h ht => k (h.snoc ht he)

/-- Goal-directed form of `Before.keep`. -/
theorem Before.advance {c : Call} {F : Call → Prop} {t t1 : List Event} {e : Event} {G : Prop}
    (he : e.call ≠ c ∧ ¬ F e.call) (k : Before c F t1 → G) :
    Before c F t → t1 = t ++ [e] → G :=
  fun h ht => k (h.keep ht he)

/-- Goal-directed form of `After.keep_after`. -/
theorem After.advance_after {c : Call} {t t1 : List Event} {e : Event} {G : Prop}
    (he : e.call ≠ c) (k : After c t1 → G) : After c t → t1 = t ++ [e] → G :=
  fun h ht => k (h.keep_after ht he)

theorem Before.answer {c : Call} {F : Call → Prop} {t t1 : List Event} {out serr : GoString}
    {err : Option GoError} (h : Before c F t) (ht : t1 = t ++ [⟨c, out, serr, err⟩])
    (hne : ¬ out = []) : After c t1 :=
  Safe.snoc (P := fun e => ¬ (e.call = c ∧ e.err = none ∧ e.stdout = []))
    (fun e he hc => (h e he).1 hc.1) ht (fun hc => hne hc.2.2)

theorem Before.post {c : Call} {F : Call → Prop} {t : List Event} (h : Before c F t)
    (msg : GoString) (res : Option GoError) : EmptyAnswerAborts c F msg res t :=
  fun ev hev hc _ _ => absurd hc (h ev hev).1

theorem After.post_after {c : Call} {t : List Event} (h : After c t) (F : Call → Prop)
    (msg : GoString) (res : Option GoError) : EmptyAnswerAborts c F msg res t :=
  fun ev hev hc he ho => absurd ⟨hc, he, ho⟩ (h ev hev)

theorem Before.answer_fail {c : Call} {F : Call → Prop} {t t1 : List Event} {out serr : GoString}
    {err : Option GoError} (h : Before c F t) (ht : t1 = t ++ [⟨c, out, serr, err⟩])
    (hfail : err ≠ none) (msg : GoString) (res : Option GoError) :
    EmptyAnswerAborts c F msg res t1 := by
  subst ht
  intro ev hev hc he ho
  rcases List.mem_append.1 hev with h1 | h1
  · exact absurd hc (h ev h1).1
  · rw [List.mem_singleton] at h1
    subst h1
    exact absurd he hfail

theorem Before.answer_empty {c : Call} {F : Call → Prop} {t t1 : List Event} {out serr : GoString}
    {err : Option GoError} (h : Before c F t) (ht : t1 = t ++ [⟨c, out, serr, err⟩])
    (hF : ¬ F c) (msg : GoString) : EmptyAnswerAborts c F msg (some ⟨msg⟩) t1 := by
  subst ht
  intro ev hev hc he ho
  rcases List.mem_append.1 hev with h1 | h1
  · exact absurd hc (h ev h1).1
  · rw [List.mem_singleton] at h1
    subst h1
    refine ⟨rfl, by simp, ?_⟩
    intro e he1
    rcases List.mem_append.1 he1 with h2 | h2
    · exact (h e h2).2
    · rw [List.mem_singleton] at h2
      subst h2
      exact hF


/-! ### The calls issued so far -/

theorem Issued.begin : Issued [] none [] := ⟨rfl, rfl⟩

theorem Issued.issue {cs : List Call} {last : Option Event} {t t1 : List Event} {c : Call}
    {out serr : GoString} {err : Option GoError} (h : Issued cs last t)
    (ht : t1 = t ++ [⟨c, out, serr, err⟩]) :
    Issued (cs ++ [c]) (some ⟨c, out, serr, err⟩) t1 := by
  subst ht
  refine ⟨?_, by simp⟩
  simp [calls, ← h.1]

theorem Issued.follows {cs full : List Call} {e : Event} {t : List Event}
    {interfaceName : GoString} {res : Option GoError} (h : Issued cs (some e) t)
    (hpre : cs <+: full) (hres : res = none → cs = full)
    (hprog : e.err = none → (isCheckedRead interfaceName e.call → e.stdout ≠ []) → res = none) :
    FollowsCalls full interfaceName res t := by
  refine ⟨by rw [h.1]; exact hpre, fun hr => by rw [h.1]; exact hres hr, ?_, ?_⟩
  · intro e1 he1 hok hread
    rw [h.2] at he1
    cases he1
    exact hprog hok hread
  · intro ht
    subst ht
    have := h.2
    simp at this

section Traces

seal lit

theorem CreateManagementPort_abort_aux {σ : Type} (L : Lib) (W : World σ)
    (nodeName localSubnet clusterSubnet : GoString) (s : σ) :
    AbortsAtFirstFailure (L.ToLower nodeName)
      (CreateManagementPort L W nodeName localSubnet clusterSubnet (start s)).1
      (CreateManagementPort L W nodeName localSubnet clusterSubnet (start s)).2.trace := by
  refine (wp_iff (CreateManagementPort L W nodeName localSubnet clusterSubnet)
    (fun res r => AbortsAtFirstFailure (L.ToLower nodeName) res r.trace) (start s)).1 ?_
  have hI : AllOk none 0 (start s).trace := ⟨by simp [start], rfl, rfl⟩
  generalize start s = r at hI
  obtain ⟨w, t, l⟩ := r
  unfold CreateManagementPort configureManagementPort
  cases hp : L.ParseCIDR localSubnet with
  | error err =>
    rw [wp_pure]
    exact hI.check _
  | ok v =>
    obtain ⟨ip, net⟩ := v
    dsimp only at hI ⊢
    repeat' first
      | (replace hI := hI.extend ht hok; clear ht)
      | (replace hI := hI.extend_none ht; clear ht)
      | rw [wp_bind]
      | rw [wp_pure]
      | (rw [wp_ite]; refine ⟨fun hfail => ?_, fun hok => ?_⟩ <;> try exact absurd hfail hok)
      | (rw [wp_RunOVNNbctl]; dsimp only; intro out serr err w t hw ht; clear hw)
      | (rw [wp_RunOVSVsctl]; dsimp only; intro out serr err w t hw ht; clear hw)
      | (rw [wp_execCombinedOutput]; dsimp only; intro out err w t hw ht; clear hw)
      | (rw [wp_GenerateMac]; dsimp only; intro mac w t hw ht; clear hw)
      | (rw [wp_GetK8sClusterRouter]; dsimp only; intro out err w t hw ht; clear hw)
      | (rw [wp_logrusErrorf]; dsimp only)
    all_goals first
      | exact hI.fail ht hfail
      | exact hI.success (by decide)
      | exact hI.check _

theorem CreateManagementPort_empty_mac_aux {σ : Type} (L : Lib) (W : World σ)
    (nodeName localSubnet clusterSubnet : GoString) (s : σ) :
    EmptyAnswerAborts (macInUseRead (interfaceNameOf (L.ToLower nodeName)))
      (followsMacRead (L.ToLower nodeName)) (lit "Failed to get mac address of ovn-k8s-master")
      (CreateManagementPort L W nodeName localSubnet clusterSubnet (start s)).1
      (CreateManagementPort L W nodeName localSubnet clusterSubnet (start s)).2.trace := by
  refine (wp_iff (CreateManagementPort L W nodeName localSubnet clusterSubnet)
    (fun res r => EmptyAnswerAborts (macInUseRead (interfaceNameOf (L.ToLower nodeName)))
      (followsMacRead (L.ToLower nodeName)) (lit "Failed to get mac address of ovn-k8s-master")
      res r.trace) (start s)).1 ?_
  have hI : Before (macInUseRead (interfaceNameOf (L.ToLower nodeName)))
      (followsMacRead (L.ToLower nodeName)) (start s).trace := Before.start _ _
  generalize start s = r at hI
  obtain ⟨w, t, l⟩ := r
  unfold CreateManagementPort configureManagementPort
  cases hp : L.ParseCIDR localSubnet with
  | error err =>
    rw [wp_pure]
    exact hI.post _ _
  | ok v =>
    obtain ⟨ip, net⟩ := v
    dsimp only at hI ⊢
    repeat' first
      | (revert hI ht; refine Before.advance ?_ ?_;
          (focus (simp [macInUseRead, followsMacRead, loadBalancerFind, lit_mayExist_ne_dataBare,
            lit_ifExist_ne_add]; done)); intro hI)
      | (revert hI ht; refine After.advance_after ?_ ?_;
          (focus (simp [macInUseRead]; done)); intro hI)
      | (replace hI := hI.answer ht hok; clear ht)
      | rw [wp_bind]
      | rw [wp_pure]
      | (rw [wp_ite]; refine ⟨fun hfail => ?_, fun hok => ?_⟩ <;> try exact absurd hfail hok)
      | (rw [wp_RunOVNNbctl]; dsimp only; intro out serr err w t hw ht; clear hw)
      | (rw [wp_RunOVSVsctl]; dsimp only; intro out serr err w t hw ht; clear hw)
      | (rw [wp_execCombinedOutput]; dsimp only; intro out err w t hw ht; clear hw)
      | (rw [wp_GenerateMac]; dsimp only; intro mac w t hw ht; clear hw)
      | (rw [wp_GetK8sClusterRouter]; dsimp only; intro out err w t hw ht; clear hw)
      | (rw [wp_logrusErrorf]; dsimp only)
    all_goals first
      | exact hI.post _ _
      | exact hI.post_after _ _ _
      | exact hI.answer_fail ht hfail _ _
      | exact hI.answer_empty ht (by simp [macInUseRead, followsMacRead, loadBalancerFind]) _

theorem CreateManagementPort_empty_lb_aux {σ : Type} (L : Lib) (W : World σ)
    (nodeName localSubnet clusterSubnet : GoString) (s : σ) :
    EmptyAnswerAborts (loadBalancerFind (lit "external_ids:k8s-cluster-lb-tcp=yes"))
      (followsTCPFind (L.ToLower nodeName)) (lit "Failed to get k8sClusterLbTCP")
      (CreateManagementPort L W nodeName localSubnet clusterSubnet (start s)).1
      (CreateManagementPort L W nodeName localSubnet clusterSubnet (start s)).2.trace := by
  refine (wp_iff (CreateManagementPort L W nodeName localSubnet clusterSubnet)
    (fun res r => EmptyAnswerAborts (loadBalancerFind (lit "external_ids:k8s-cluster-lb-tcp=yes"))
      (followsTCPFind (L.ToLower nodeName)) (lit "Failed to get k8sClusterLbTCP")
      res r.trace) (start s)).1 ?_
  have hI : Before (loadBalancerFind (lit "external_ids:k8s-cluster-lb-tcp=yes"))
      (followsTCPFind (L.ToLower nodeName)) (start s).trace := Before.start _ _
  generalize start s = r at hI
  obtain ⟨w, t, l⟩ := r
  unfold CreateManagementPort configureManagementPort
  cases hp : L.ParseCIDR localSubnet with
  | error err =>
    rw [wp_pure]
    exact hI.post _ _
  | ok v =>
    obtain ⟨ip, net⟩ := v
    dsimp only at hI ⊢
    repeat' first
      | (revert hI ht; refine Before.advance ?_ ?_;
          (focus (simp [followsTCPFind, loadBalancerFind, lit_mayExist_ne_dataBare,
            lit_ifExist_ne_add]; done)); intro hI)
      | (revert hI ht; refine After.advance_after ?_ ?_;
          (focus (simp [loadBalancerFind, lit_udp_ne_tcp]; done)); intro hI)
      | (replace hI := hI.answer ht hok; clear ht)
      | rw [wp_bind]
      | rw [wp_pure]
      | (rw [wp_ite]; refine ⟨fun hfail => ?_, fun hok => ?_⟩ <;> try exact absurd hfail hok)
      | (rw [wp_RunOVNNbctl]; dsimp only; intro out serr err w t hw ht; clear hw)
      | (rw [wp_RunOVSVsctl]; dsimp only; intro out serr err w t hw ht; clear hw)
      | (rw [wp_execCombinedOutput]; dsimp only; intro out err w t hw ht; clear hw)
      | (rw [wp_GenerateMac]; dsimp only; intro mac w t hw ht; clear hw)
      | (rw [wp_GetK8sClusterRouter]; dsimp only; intro out err w t hw ht; clear hw)
      | (rw [wp_logrusErrorf]; dsimp only)
    all_goals first
      | exact hI.post _ _
      | exact hI.post_after _ _ _
      | exact hI.answer_fail ht hfail _ _
      | exact hI.answer_empty ht (by simp [followsTCPFind, loadBalancerFind, lit_tcp_ne_udp]) _

theorem CreateManagementPort_reuse_aux {σ : Type} (L : Lib) (W : World σ)
    (nodeName localSubnet clusterSubnet : GoString) (s s1 : σ) (m serr : GoString)
    (hlook : W.RunOVNNbctl [lit "--if-exist", lit "get", lit "logical_router_port",
      lit "rtos-" ++ L.ToLower nodeName, lit "mac"] s = ((m, serr, none), s1))
    (hm : ¬ m = []) :
    Safe (fun e => ReusesRouterMac (L.ToLower nodeName) m e.call)
      (CreateManagementPort L W nodeName localSubnet clusterSubnet (start s)).2.trace := by
  refine (wp_iff (CreateManagementPort L W nodeName localSubnet clusterSubnet)
    (fun _ r => Safe (fun e => ReusesRouterMac (L.ToLower nodeName) m e.call) r.trace)
    (start s)).1 ?_
  have hI : Safe (fun e => ReusesRouterMac (L.ToLower nodeName) m e.call) (start s).trace :=
    Safe.empty _
  unfold CreateManagementPort configureManagementPort
  cases hp : L.ParseCIDR localSubnet with
  | error err =>
    rw [wp_pure]
    exact hI
  | ok v =>
    obtain ⟨ip, net⟩ := v
    dsimp only [start] at hI ⊢
    rw [wp_bind, wp_RunOVNNbctl]
    dsimp only
    intro out serr1 err w t hw ht
    rw [hlook] at hw
    simp only [Prod.mk.injEq] at hw
    obtain ⟨⟨rfl, rfl, rfl⟩, rfl⟩ := hw
    repeat' first
      | (revert hI ht; refine Safe.step ?_ ?_;
          (focus (simp [ReusesRouterMac, routerFacingPortAdd, lit_dataBare_ne_mayExist] <;>
            (intros; subst_vars; first | rfl | exact ⟨rfl, rfl⟩ | exact ⟨_, rfl⟩)));
          intro hI)
      | rw [wp_bind]
      | rw [wp_pure]
      | (rw [wp_ite]; refine ⟨fun hfail => ?_, fun hok => ?_⟩ <;>
          first | exact absurd hfail hok | exact absurd hfail hm | skip)
      | (rw [wp_RunOVNNbctl]; dsimp only; intro out serr err w t hw ht; clear hw)
      | (rw [wp_RunOVSVsctl]; dsimp only; intro out serr err w t hw ht; clear hw)
      | (rw [wp_execCombinedOutput]; dsimp only; intro out err w t hw ht; clear hw)
      | (rw [wp_GenerateMac]; dsimp only; intro mac w t hw ht; clear hw)
      | (rw [wp_GetK8sClusterRouter]; dsimp only; intro out err w t hw ht; clear hw)
      | (rw [wp_logrusErrorf]; dsimp only)
    all_goals exact hI

theorem CreateManagementPort_fresh_aux {σ : Type} (L : Lib) (W : World σ)
    (nodeName localSubnet clusterSubnet : GoString) (s s1 : σ) (serr : GoString)
    (hlook : W.RunOVNNbctl [lit "--if-exist", lit "get", lit "logical_router_port",
      lit "rtos-" ++ L.ToLower nodeName, lit "mac"] s = (([], serr, none), s1)) :
    Safe (fun e => UsesRouterMac (L.ToLower nodeName) (W.GenerateMac s1).1 e.call)
      (CreateManagementPort L W nodeName localSubnet clusterSubnet (start s)).2.trace := by
  refine (wp_iff (CreateManagementPort L W nodeName localSubnet clusterSubnet)
    (fun _ r => Safe (fun e => UsesRouterMac (L.ToLower nodeName) (W.GenerateMac s1).1 e.call)
      r.trace) (start s)).1 ?_
  have hI : Safe (fun e => UsesRouterMac (L.ToLower nodeName) (W.GenerateMac s1).1 e.call)
      (start s).trace := Safe.empty _
  unfold CreateManagementPort configureManagementPort
  cases hp : L.ParseCIDR localSubnet with
  | error err =>
    rw [wp_pure]
    exact hI
  | ok v =>
    obtain ⟨ip, net⟩ := v
    dsimp only [start] at hI ⊢
    rw [wp_bind, wp_RunOVNNbctl]
    dsimp only
    intro out serr1 err w t hw ht
    rw [hlook] at hw
    simp only [Prod.mk.injEq] at hw
    obtain ⟨⟨rfl, rfl, rfl⟩, rfl⟩ := hw
    revert hI ht
    refine Safe.step ?_ ?_
    · simp [UsesRouterMac, routerFacingPortAdd]
    intro hI
    rw [wp_ite]
    refine ⟨fun hfail => absurd rfl hfail, fun _ => ?_⟩
    rw [wp_ite]
    refine ⟨fun _ => ?_, fun hok => absurd rfl hok⟩
    rw [wp_bind, wp_GenerateMac]
    dsimp only
    intro mac w t hw ht
    have hmac : mac = (W.GenerateMac s1).1 := by rw [hw]
    clear hw
    subst hmac
    repeat' first
      | (revert hI ht; refine Safe.step ?_ ?_;
          (focus (simp [UsesRouterMac, routerFacingPortAdd, lit_dataBare_ne_mayExist] <;>
            (intros; subst_vars; first | rfl | exact ⟨rfl, rfl⟩ | exact ⟨_, rfl⟩)));
          intro hI)
      | rw [wp_bind]
      | rw [wp_pure]
      | (rw [wp_ite]; refine ⟨fun hfail => ?_, fun hok => ?_⟩ <;> try exact absurd hfail hok)
      | (rw [wp_RunOVNNbctl]; dsimp only; intro out serr err w t hw ht; clear hw)
      | (rw [wp_RunOVSVsctl]; dsimp only; intro out serr err w t hw ht; clear hw)
      | (rw [wp_execCombinedOutput]; dsimp only; intro out err w t hw ht; clear hw)
      | (rw [wp_GetK8sClusterRouter]; dsimp only; intro out err w t hw ht; clear hw)
      | (rw [wp_logrusErrorf]; dsimp only)
    all_goals exact hI

theorem CreateManagementPort_calls_aux {σ : Type} (L : Lib) (W : World σ)
    (nodeName localSubnet clusterSubnet : GoString) (s : σ) (ip : IP) (net : IPNet)
    (hp : L.ParseCIDR localSubnet = .ok (ip, net)) :
    ∃ a : Answers,
      FollowsCalls
        (provisioningCalls (L.ToLower nodeName) localSubnet clusterSubnet
          (L.IPString (L.NextIP ip)) (L.IPString (L.NextIP (L.NextIP ip)))
          (itoa (L.MaskSize net.Mask).1) (itoa L.MTU) (interfaceNameOf (L.ToLower nodeName)) a)
        (interfaceNameOf (L.ToLower nodeName))
        (CreateManagementPort L W nodeName localSubnet clusterSubnet (start s)).1
        (CreateManagementPort L W nodeName localSubnet clusterSubnet (start s)).2.trace := by
  refine (wp_iff (CreateManagementPort L W nodeName localSubnet clusterSubnet)
    (fun res r => ∃ a : Answers,
      FollowsCalls
        (provisioningCalls (L.ToLower nodeName) localSubnet clusterSubnet
          (L.IPString (L.NextIP ip)) (L.IPString (L.NextIP (L.NextIP ip)))
          (itoa (L.MaskSize net.Mask).1) (itoa L.MTU) (interfaceNameOf (L.ToLower nodeName)) a)
        (interfaceNameOf (L.ToLower nodeName)) res r.trace) (start s)).1 ?_
  have hI : Issued [] none (start s).trace := Issued.begin
  generalize start s = r at hI
  obtain ⟨w, t, l⟩ := r
  unfold CreateManagementPort configureManagementPort
  rw [hp]
  dsimp only at hI ⊢
  repeat' first
    | (replace hI := hI.issue ht; clear ht)
    | rw [wp_bind]
    | rw [wp_pure]
    | (rw [wp_ite]; refine ⟨fun hfail => ?_, fun hok => ?_⟩ <;>
        try exact absurd hfail hok)
    | (rw [wp_RunOVNNbctl]; dsimp only; intro out serr err w t hw ht; clear hw)
    | (rw [wp_RunOVSVsctl]; dsimp only; intro out serr err w t hw ht; clear hw)
    | (rw [wp_execCombinedOutput]; dsimp only; intro out err w t hw ht; clear hw)
    | (rw [wp_GenerateMac]; dsimp only; intro mac w t hw ht; clear hw)
    | (rw [wp_GetK8sClusterRouter]; dsimp only; intro out err w t hw ht; clear hw)
    | (rw [wp_logrusErrorf]; dsimp only)
  all_goals simp only [List.nil_append, List.cons_append] at hI
  all_goals first
    | (refine ⟨⟨none, ?_, ?_, ?_, ?_⟩, ?_⟩
       rotate_left 4
       refine hI.follows ?_ ?_ ?_
       · repeat (first
           | exact List.nil_prefix
           | (refine List.cons_prefix_cons.2 ⟨?_, ?_⟩; exact rfl))
       · intro h; first | exact absurd h hfail | exact rfl | cases h
       · intro h1 h2
         first
          | exact absurd h1 hfail
          | exact absurd hfail (h2 (Or.inl rfl))
          | exact absurd hfail (h2 (Or.inr (Or.inl rfl)))
          | exact absurd hfail (h2 (Or.inr (Or.inr rfl)))
          | exact rfl
       all_goals exact [])
    | (refine ⟨⟨some ?_, ?_, ?_, ?_, ?_⟩, ?_⟩
       rotate_left 5
       refine hI.follows ?_ ?_ ?_
       · repeat (first
           | exact List.nil_prefix
           | (refine List.cons_prefix_cons.2 ⟨?_, ?_⟩; exact rfl))
       · intro h; first | exact absurd h hfail | exact rfl | cases h
       · intro h1 h2
         first
          | exact absurd h1 hfail
          | exact absurd hfail (h2 (Or.inl rfl))
          | exact absurd hfail (h2 (Or.inr (Or.inl rfl)))
          | exact absurd hfail (h2 (Or.inr (Or.inr rfl)))
          | exact rfl
       all_goals exact [])

theorem CreateManagementPort_reuse_calls_aux {σ : Type} (L : Lib) (W : World σ)
    (nodeName localSubnet clusterSubnet : GoString) (s s1 : σ) (m serr : GoString) (ip : IP)
    (net : IPNet) (hp : L.ParseCIDR localSubnet = .ok (ip, net))
    (hlook : W.RunOVNNbctl [lit "--if-exist", lit "get", lit "logical_router_port",
      lit "rtos-" ++ L.ToLower nodeName, lit "mac"] s = ((m, serr, none), s1))
    (hm : ¬ m = []) :
    ∃ mac T U,
      FollowsCalls
        (provisioningCalls (L.ToLower nodeName) localSubnet clusterSubnet
          (L.IPString (L.NextIP ip)) (L.IPString (L.NextIP (L.NextIP ip)))
          (itoa (L.MaskSize net.Mask).1) (itoa L.MTU) (interfaceNameOf (L.ToLower nodeName))
          ⟨none, m, mac, T, U⟩)
        (interfaceNameOf (L.ToLower nodeName))
        (CreateManagementPort L W nodeName localSubnet clusterSubnet (start s)).1
        (CreateManagementPort L W nodeName localSubnet clusterSubnet (start s)).2.trace := by
  refine (wp_iff (CreateManagementPort L W nodeName localSubnet clusterSubnet)
    (fun res r => ∃ mac T U,
      FollowsCalls
        (provisioningCalls (L.ToLower nodeName) localSubnet clusterSubnet
          (L.IPString (L.NextIP ip)) (L.IPString (L.NextIP (L.NextIP ip)))
          (itoa (L.MaskSize net.Mask).1) (itoa L.MTU) (interfaceNameOf (L.ToLower nodeName))
          ⟨none, m, mac, T, U⟩)
        (interfaceNameOf (L.ToLower nodeName)) res r.trace) (start s)).1 ?_
  have hI : Issued [] none (start s).trace := Issued.begin
  unfold CreateManagementPort configureManagementPort
  rw [hp]
  dsimp only [start] at hI ⊢
  rw [wp_bind, wp_RunOVNNbctl]
  dsimp only
  intro out serr1 err w t hw ht
  rw [hlook] at hw
  simp only [Prod.mk.injEq] at hw
  obtain ⟨⟨rfl, rfl, rfl⟩, rfl⟩ := hw
  repeat' first
    | (replace hI := hI.issue ht; clear ht)
    | rw [wp_bind]
    | rw [wp_pure]
    | (rw [wp_ite]; refine ⟨fun hfail => ?_, fun hok => ?_⟩ <;>
        first | exact absurd hfail hok | exact absurd hfail hm | skip)
    | (rw [wp_RunOVNNbctl]; dsimp only; intro out serr err w t hw ht; clear hw)
    | (rw [wp_RunOVSVsctl]; dsimp only; intro out serr err w t hw ht; clear hw)
    | (rw [wp_execCombinedOutput]; dsimp only; intro out err w t hw ht; clear hw)
    | (rw [wp_GenerateMac]; dsimp only; intro mac w t hw ht; clear hw)
    | (rw [wp_GetK8sClusterRouter]; dsimp only; intro out err w t hw ht; clear hw)
    | (rw [wp_logrusErrorf]; dsimp only)
  all_goals simp only [List.nil_append, List.cons_append] at hI
  all_goals
    refine ⟨?_, ?_, ?_, ?_⟩
    rotate_left 3
    refine hI.follows ?_ ?_ ?_
    · repeat (first
        | exact List.nil_prefix
        | (refine List.cons_prefix_cons.2 ⟨?_, ?_⟩; exact rfl))
    · intro h; first | exact absurd h hfail | exact rfl | cases h
    · intro h1 h2
      first
       | exact absurd h1 hfail
       | exact absurd hfail (h2 (Or.inl rfl))
       | exact absurd hfail (h2 (Or.inr (Or.inl rfl)))
       | exact absurd hfail (h2 (Or.inr (Or.inr rfl)))
       | exact rfl
    all_goals exact []

theorem CreateManagementPort_fresh_calls_aux {σ : Type} (L : Lib) (W : World σ)
    (nodeName localSubnet clusterSubnet : GoString) (s s1 : σ) (serr : GoString) (ip : IP)
    (net : IPNet) (hp : L.ParseCIDR localSubnet = .ok (ip, net))
    (hlook : W.RunOVNNbctl [lit "--if-exist", lit "get", lit "logical_router_port",
      lit "rtos-" ++ L.ToLower nodeName, lit "mac"] s = (([], serr, none), s1)) :
    ∃ r mac T U,
      FollowsCalls
        (provisioningCalls (L.ToLower nodeName) localSubnet clusterSubnet
          (L.IPString (L.NextIP ip)) (L.IPString (L.NextIP (L.NextIP ip)))
          (itoa (L.MaskSize net.Mask).1) (itoa L.MTU) (interfaceNameOf (L.ToLower nodeName))
          ⟨some r, (W.GenerateMac s1).1, mac, T, U⟩)
        (interfaceNameOf (L.ToLower nodeName))
        (CreateManagementPort L W nodeName localSubnet clusterSubnet (start s)).1
        (CreateManagementPort L W nodeName localSubnet clusterSubnet (start s)).2.trace := by
  refine (wp_iff (CreateManagementPort L W nodeName localSubnet clusterSubnet)
    (fun res r1 => ∃ r mac T U,
      FollowsCalls
        (provisioningCalls (L.ToLower nodeName) localSubnet clusterSubnet
          (L.IPString (L.NextIP ip)) (L.IPString (L.NextIP (L.NextIP ip)))
          (itoa (L.MaskSize net.Mask).1) (itoa L.MTU) (interfaceNameOf (L.ToLower nodeName))
          ⟨some r, (W.GenerateMac s1).1, mac, T, U⟩)
        (interfaceNameOf (L.ToLower nodeName)) res r1.trace) (start s)).1 ?_
  have hI : Issued [] none (start s).trace := Issued.begin
  unfold CreateManagementPort configureManagementPort
  rw [hp]
  dsimp only [start] at hI ⊢
  rw [wp_bind, wp_RunOVNNbctl]
  dsimp only
  intro out serr1 err w t hw ht
  rw [hlook] at hw
  simp only [Prod.mk.injEq] at hw
  obtain ⟨⟨rfl, rfl, rfl⟩, rfl⟩ := hw
  replace hI := hI.issue ht
  clear ht
  rw [wp_ite]
  refine ⟨fun hfail => absurd rfl hfail, fun _ => ?_⟩
  rw [wp_ite]
  refine ⟨fun _ => ?_, fun hok => absurd rfl hok⟩
  rw [wp_bind, wp_GenerateMac]
  dsimp only
  intro mac w t hw ht
  have hmac : mac = (W.GenerateMac s1).1 := by rw [hw]
  clear hw
  subst hmac
  repeat' first
    | (replace hI := hI.issue ht; clear ht)
    | rw [wp_bind]
    | rw [wp_pure]
    | (rw [wp_ite]; refine ⟨fun hfail => ?_, fun hok => ?_⟩ <;>
        first | exact absurd hfail hok | skip)
    | (rw [wp_RunOVNNbctl]; dsimp only; intro out serr err w t hw ht; clear hw)
    | (rw [wp_RunOVSVsctl]; dsimp only; intro out serr err w t hw ht; clear hw)
    | (rw [wp_execCombinedOutput]; dsimp only; intro out err w t hw ht; clear hw)
    | (rw [wp_GenerateMac]; dsimp only; intro mac w t hw ht; clear hw)
    | (rw [wp_GetK8sClusterRouter]; dsimp only; intro out err w t hw ht; clear hw)
    | (rw [wp_logrusErrorf]; dsimp only)
  all_goals simp only [List.nil_append, List.cons_append] at hI
  all_goals
    refine ⟨?_, ?_, ?_, ?_, ?_⟩
    rotate_left 4
    refine hI.follows ?_ ?_ ?_
    · repeat (first
        | exact List.nil_prefix
        | (refine List.cons_prefix_cons.2 ⟨?_, ?_⟩; exact rfl))
    · intro h; first | exact absurd h hfail | exact rfl | cases h
    · intro h1 h2
      first
       | exact absurd h1 hfail
       | exact absurd hfail (h2 (Or.inl rfl))
       | exact absurd hfail (h2 (Or.inr (Or.inl rfl)))
       | exact absurd hfail (h2 (Or.inr (Or.inr rfl)))
       | exact rfl
    all_goals exact []

/-- C2: if the read of the interface's `mac_in_use` succeeds and returns the empty
string, the run returns the error "Failed to get mac address of ovn-k8s-master" and
that read is the last call issued: no host command, no creation of the host-facing
logical port, no load-balancer lookup and no load-balancer binding is in the trace. -/
theorem CreateManagementPort_empty_mac_in_use {σ : Type} (L : Lib) (W : World σ)
    (nodeName localSubnet clusterSubnet : GoString) (s : σ) (ev : Event)
    (hmem : ev ∈ (CreateManagementPort L W nodeName localSubnet clusterSubnet (start s)).2.trace)
    (hcall : ev.call = macInUseRead (interfaceNameOf (L.ToLower nodeName)))
    (hok : ev.err = none) (hempty : ev.stdout = []) :
    (CreateManagementPort L W nodeName localSubnet clusterSubnet (start s)).1
        = some ⟨lit "Failed to get mac address of ovn-k8s-master"⟩
    ∧ (CreateManagementPort L W nodeName localSubnet clusterSubnet (start s)).2.trace.getLast?
        = some ev
    ∧ ∀ e ∈ (CreateManagementPort L W nodeName localSubnet clusterSubnet (start s)).2.trace,
        ¬ followsMacRead (L.ToLower nodeName) e.call :=
  CreateManagementPort_empty_mac_aux L W nodeName localSubnet clusterSubnet s ev hmem hcall hok
    hempty

/-- C3: if the lookup of the load balancer tagged `k8s-cluster-lb-tcp=yes` succeeds and
returns the empty string, the run returns the error "Failed to get k8sClusterLbTCP" and
that lookup is the last call issued: neither the set of the switch's `load_balancer`,
nor the UDP lookup, nor the UDP add is in the trace. -/
theorem CreateManagementPort_empty_tcp_load_balancer {σ : Type} (L : Lib) (W : World σ)
    (nodeName localSubnet clusterSubnet : GoString) (s : σ) (ev : Event)
    (hmem : ev ∈ (CreateManagementPort L W nodeName localSubnet clusterSubnet (start s)).2.trace)
    (hcall : ev.call = loadBalancerFind (lit "external_ids:k8s-cluster-lb-tcp=yes"))
    (hok : ev.err = none) (hempty : ev.stdout = []) :
    (CreateManagementPort L W nodeName localSubnet clusterSubnet (start s)).1
        = some ⟨lit "Failed to get k8sClusterLbTCP"⟩
    ∧ (CreateManagementPort L W nodeName localSubnet clusterSubnet (start s)).2.trace.getLast?
        = some ev
    ∧ ∀ e ∈ (CreateManagementPort L W nodeName localSubnet clusterSubnet (start s)).2.trace,
        ¬ followsTCPFind (L.ToLower nodeName) e.call :=
  CreateManagementPort_empty_lb_aux L W nodeName localSubnet clusterSubnet s ev hmem hcall hok
    hempty

/-- C4: if the lookup of `logical_router_port rtos-<node>` returns a non-empty MAC `m`,
no call of the run generates a MAC, resolves the cluster router or is an `lrp-add`, and
the run follows the sequence that starts with the lookup alone and creates `stor-<node>`
with the addresses `"m"`: it issues an initial segment of that sequence, goes on after
every successful call (but for an empty answer to one of the three checked reads), and
issues all of it when it returns no error. If the lookup returns the empty string, the
run follows the sequence in which the lookup is followed by the MAC generator, the
resolution of the cluster router and an `lrp-add` with the MAC the generator returns
right after the lookup, and in which `stor-<node>` is created with that same MAC as
addresses. -/
theorem CreateManagementPort_router_mac {σ : Type} (L : Lib) (W : World σ)
    (nodeName localSubnet clusterSubnet : GoString) (s : σ) :
    (∀ m serr s1,
      W.RunOVNNbctl [lit "--if-exist", lit "get", lit "logical_router_port",
        lit "rtos-" ++ L.ToLower nodeName, lit "mac"] s = ((m, serr, none), s1) →
      m ≠ [] →
      (∀ e ∈ (CreateManagementPort L W nodeName localSubnet clusterSubnet (start s)).2.trace,
        ReusesRouterMac (L.ToLower nodeName) m e.call)
      ∧ ∀ ip net, L.ParseCIDR localSubnet = .ok (ip, net) →
        ∃ mac T U,
          FollowsCalls
            (provisioningCalls (L.ToLower nodeName) localSubnet clusterSubnet
              (L.IPString (L.NextIP ip)) (L.IPString (L.NextIP (L.NextIP ip)))
              (itoa (L.MaskSize net.Mask).1) (itoa L.MTU) (interfaceNameOf (L.ToLower nodeName))
              ⟨none, m, mac, T, U⟩)
            (interfaceNameOf (L.ToLower nodeName))
            (CreateManagementPort L W nodeName localSubnet clusterSubnet (start s)).1
            (CreateManagementPort L W nodeName localSubnet clusterSubnet (start s)).2.trace)
    ∧ (∀ serr s1,
      W.RunOVNNbctl [lit "--if-exist", lit "get", lit "logical_router_port",
        lit "rtos-" ++ L.ToLower nodeName, lit "mac"] s = (([], serr, none), s1) →
      (∀ e ∈ (CreateManagementPort L W nodeName localSubnet clusterSubnet (start s)).2.trace,
        UsesRouterMac (L.ToLower nodeName) (W.GenerateMac s1).1 e.call)
      ∧ ∀ ip net, L.ParseCIDR localSubnet = .ok (ip, net) →
        ∃ r mac T U,
          FollowsCalls
            (provisioningCalls (L.ToLower nodeName) localSubnet clusterSubnet
              (L.IPString (L.NextIP ip)) (L.IPString (L.NextIP (L.NextIP ip)))
              (itoa (L.MaskSize net.Mask).1) (itoa L.MTU) (interfaceNameOf (L.ToLower nodeName))
              ⟨some r, (W.GenerateMac s1).1, mac, T, U⟩)
            (interfaceNameOf (L.ToLower nodeName))
            (CreateManagementPort L W nodeName localSubnet clusterSubnet (start s)).1
            (CreateManagementPort L W nodeName localSubnet clusterSubnet (start s)).2.trace) :=
  ⟨fun m serr s1 hlook hm =>
      ⟨CreateManagementPort_reuse_aux L W nodeName localSubnet clusterSubnet s s1 m serr hlook hm,
        fun ip net hp => CreateManagementPort_reuse_calls_aux L W nodeName localSubnet
          clusterSubnet s s1 m serr ip net hp hlook hm⟩,
    fun serr s1 hlook =>
      ⟨CreateManagementPort_fresh_aux L W nodeName localSubnet clusterSubnet s s1 serr hlook,
        fun ip net hp => CreateManagementPort_fresh_calls_aux L W nodeName localSubnet
          clusterSubnet s s1 serr ip net hp hlook⟩⟩

/-- C5: when the local subnet parses, the run follows the sequence of calls in which the
interface is named `name`, where `name` is `k8s-` followed by the lower-cased node name
when that name has at most 11 bytes and `k8s-` followed by its first 11 bytes otherwise:
`name` is the interface of the `add-port`, of the read of `mac_in_use` and of the `ip`
commands of the run. It is fixed by the node name alone, and has at most 15 bytes. -/
theorem CreateManagementPort_interface_name {σ : Type} (L : Lib) (W : World σ)
    (nodeName localSubnet clusterSubnet : GoString) (s : σ) (ip : IP) (net : IPNet)
    (hp : L.ParseCIDR localSubnet = .ok (ip, net)) :
    ∃ name : GoString,
      ((L.ToLower nodeName).length ≤ 11 → name = lit "k8s-" ++ L.ToLower nodeName)
      ∧ (11 < (L.ToLower nodeName).length →
          name = lit "k8s-" ++ (L.ToLower nodeName).take 11)
      ∧ name.length ≤ 15
      ∧ ∃ a : Answers,
        FollowsCalls
          (provisioningCalls (L.ToLower nodeName) localSubnet clusterSubnet
            (L.IPString (L.NextIP ip)) (L.IPString (L.NextIP (L.NextIP ip)))
            (itoa (L.MaskSize net.Mask).1) (itoa L.MTU) name a)
          name
          (CreateManagementPort L W nodeName localSubnet clusterSubnet (start s)).1
          (CreateManagementPort L W nodeName localSubnet clusterSubnet (start s)).2.trace := by
  refine ⟨interfaceNameOf (L.ToLower nodeName), fun h => ?_, fun h => ?_, ?_,
    CreateManagementPort_calls_aux L W nodeName localSubnet clusterSubnet s ip net hp⟩
  · rw [interfaceNameOf, if_neg (by omega)]
  · rw [interfaceNameOf, if_pos (by omega)]
  · unfold interfaceNameOf
    split_ifs with h
    · rw [List.length_append, lit_k8s_length, List.length_take]
      omega
    · rw [List.length_append, lit_k8s_length]
      omega

/-- C8 (amended): whatever the world answers, every call but the last one issued
succeeded; if the last call failed, the run returns the error of that call, unchanged;
and a run that returns no error has only successful calls, 16 of them when the MAC of
the router port is reused and 19 when it is generated, the last one the add of the UDP
load balancer to the switch. -/
theorem CreateManagementPort_aborts_at_first_failure {σ : Type} (L : Lib) (W : World σ)
    (nodeName localSubnet clusterSubnet : GoString) (s : σ) :
    (∀ ev ∈ (CreateManagementPort L W nodeName localSubnet clusterSubnet
          (start s)).2.trace.dropLast, ev.err = none)
    ∧ (∀ e, (CreateManagementPort L W nodeName localSubnet clusterSubnet
          (start s)).2.trace.getLast?.bind Event.err = some e →
        (CreateManagementPort L W nodeName localSubnet clusterSubnet (start s)).1 = some e)
    ∧ ((CreateManagementPort L W nodeName localSubnet clusterSubnet (start s)).1 = none →
        (∀ ev ∈ (CreateManagementPort L W nodeName localSubnet clusterSubnet (start s)).2.trace,
          ev.err = none)
        ∧ ((CreateManagementPort L W nodeName localSubnet clusterSubnet
              (start s)).2.trace.length = 16
          ∨ (CreateManagementPort L W nodeName localSubnet clusterSubnet
              (start s)).2.trace.length = 19)
        ∧ ∃ id, (CreateManagementPort L W nodeName localSubnet clusterSubnet
            (start s)).2.trace.getLast?.map Event.call
          = some (.ovnNbctl [lit "add", lit "logical_switch", L.ToLower nodeName,
              lit "load_balancer", id])) :=
  CreateManagementPort_abort_aux L W nodeName localSubnet clusterSubnet s

/-- C7: `configureManagementPort` issues `ip link set <if> up`, `ip addr flush dev <if>`,
`ip addr add <ip> dev <if>`, `ip route flush <subnet>`, `ip route add <subnet> via <router>`
in this order; if the command of index `k` (from 0) is the first to fail, exactly the
first `k + 1` commands are issued and the error of that command is returned; the result
is no error exactly when all five succeed, and then all five were issued. -/
theorem configureManagementPort_order_and_abort {σ : Type} (W : World σ)
    (nodeName clusterSubnet routerIP interfaceName interfaceIP : GoString) (r : Run σ) :
    (∀ k e, k < 5 →
      (∀ ev ∈ (issueAll W ((hostCommands clusterSubnet routerIP interfaceName interfaceIP).take k)
          r.world).1, ev.err = none) →
      ((issueAll W ((hostCommands clusterSubnet routerIP interfaceName interfaceIP).take (k + 1))
          r.world).1.getLast?.bind Event.err = some e) →
      (configureManagementPort W nodeName clusterSubnet routerIP interfaceName interfaceIP r).1 = some e
      ∧ (configureManagementPort W nodeName clusterSubnet routerIP interfaceName interfaceIP r).2.trace
        = r.trace ++ (issueAll W
            ((hostCommands clusterSubnet routerIP interfaceName interfaceIP).take (k + 1)) r.world).1
      ∧ (configureManagementPort W nodeName clusterSubnet routerIP interfaceName interfaceIP r).2.world
        = (issueAll W
            ((hostCommands clusterSubnet routerIP interfaceName interfaceIP).take (k + 1)) r.world).2)
    ∧ ((configureManagementPort W nodeName clusterSubnet routerIP interfaceName interfaceIP r).1 = none ↔
        ∀ ev ∈ (issueAll W (hostCommands clusterSubnet routerIP interfaceName interfaceIP) r.world).1,
          ev.err = none)
    ∧ ((configureManagementPort W nodeName clusterSubnet routerIP interfaceName interfaceIP r).1 = none →
        (configureManagementPort W nodeName clusterSubnet routerIP interfaceName interfaceIP r).2.trace
          = r.trace ++ (issueAll W (hostCommands clusterSubnet routerIP interfaceName interfaceIP)
              r.world).1) := by
  refine ⟨?_, ?_, ?_⟩
  · intro k e hk hok hfail
    interval_cases k <;>
      simp [hostCommands, issueAll, ipEvent] at hok hfail <;>
      simp [configureManagementPort, execCombinedOutput, bind, pure, hostCommands, issueAll, ipEvent, *]
  · refine (wp_iff (configureManagementPort W nodeName clusterSubnet routerIP interfaceName interfaceIP)
      (fun res _ => res = none ↔ ∀ ev ∈ (issueAll W
        (hostCommands clusterSubnet routerIP interfaceName interfaceIP) r.world).1, ev.err = none) r).1 ?_
    unfold configureManagementPort
    repeat' first
      | rw [wp_bind]
      | rw [wp_pure]
      | (rw [wp_ite]; refine ⟨fun hfail => ?_, fun hok => ?_⟩ <;> try contradiction)
      | (rw [wp_execCombinedOutput]; dsimp only; intro out err w t hw ht; subst ht)
    all_goals simp_all [hostCommands, issueAll, ipEvent]
  · refine (wp_iff (configureManagementPort W nodeName clusterSubnet routerIP interfaceName interfaceIP)
      (fun res r1 => res = none → r1.trace = r.trace ++ (issueAll W
        (hostCommands clusterSubnet routerIP interfaceName interfaceIP) r.world).1) r).1 ?_
    unfold configureManagementPort
    repeat' first
      | rw [wp_bind]
      | rw [wp_pure]
      | (rw [wp_ite]; refine ⟨fun hfail => ?_, fun hok => ?_⟩ <;> try contradiction)
      | (rw [wp_execCombinedOutput]; dsimp only; intro out err w t hw ht; subst ht)
    all_goals simp_all [hostCommands, issueAll, ipEvent]

end Traces

/-! ## Address arithmetic -/

theorem To4_IPv4 (a b c d : UInt8) : To4 (IPv4 a b c d) = some [a, b, c, d] := by
  simp [To4, IPv4, v4InV6Prefix]

theorem parseIPv4_eq_some {s : GoString} {ip : IP} (h : parseIPv4 s = some ip) :
    ∃ a b c d, ip = IPv4 a b c d := by
  unfold parseIPv4 at h
  split at h
  · simp only [Option.some.injEq] at h
    exact ⟨_, _, _, _, h.symm⟩
  · cases h

theorem ParseCIDR_ok {s : GoString} {ip : IP} {net : IPNet} (h : ParseCIDR s = .ok (ip, net)) :
    ∃ a b c d, ip = IPv4 a b c d := by
  unfold ParseCIDR at h
  dsimp only at h
  split at h
  · cases h
  split at h
  · cases h
  rename_i ip1 hip
  split at h
  · cases h
  split at h
  · cases h
  split at h
  · cases h
  simp only [Except.ok.injEq, Prod.mk.injEq] at h
  obtain ⟨rfl, _⟩ := h
  exact parseIPv4_eq_some hip

theorem ipToInt_four (a b c d : UInt8) :
    ipToInt [a, b, c, d] = a.toNat * 16777216 + b.toNat * 65536 + c.toNat * 256 + d.toNat := by
  simp only [ipToInt, List.foldl]
  ring

theorem ipToInt_four_lt (a b c d : UInt8) : ipToInt [a, b, c, d] < 4294967296 := by
  rw [ipToInt_four]
  have ha := a.toNat_lt
  have hb := b.toNat_lt
  have hc := c.toNat_lt
  have hd := d.toNat_lt
  omega

theorem To4_intToIP (x : Nat) : To4 (intToIP 4 x) = some (intToIP 4 x) := by
  simp [To4, intToIP]

theorem toNat_ofNat8 (n : Nat) : (UInt8.ofNat n).toNat = n % 256 := rfl

theorem ipToInt_intToIP (x : Nat) (hx : x < 4294967296) : ipToInt (intToIP 4 x) = x := by
  simp only [intToIP, ipToInt_four, toNat_ofNat8]
  norm_num
  omega

theorem addrValue_intToIP (x : Nat) (hx : x < 4294967296) : addrValue (intToIP 4 x) = x := by
  simp only [addrValue, To4_intToIP, ipToInt_intToIP x hx]

theorem NextIP_of_To4 {ip p4 : IP} (h : To4 ip = some p4) :
    NextIP ip = intToIP 4 (addrValue ip + 1) := by
  simp only [NextIP, addrValue, h]

/-- Adding `k` to an aligned address stays below the end of its block. -/
theorem aligned_add_lt (v n k : Nat) (hv : v < 4294967296) (hn : n ≤ 30)
    (hzero : v % 2 ^ (32 - n) = 0) (hk : k ≤ 2) :
    networkValue v n = v ∧ v + k < broadcastValue v n ∧ broadcastValue v n < 4294967296 := by
  unfold broadcastValue networkValue
  rw [hzero]
  interval_cases n <;> norm_num at hzero ⊢ <;> omega

/-! ## The derived addresses -/

theorem IPMaskSize_CIDRMask (n : Nat) (hn : n ≤ 32) (m : IPMask) (h : CIDRMask n 32 = some m) :
    IPMaskSize m = (n, 32) := by
  simp only [CIDRMask] at h
  interval_cases n <;> simp at h <;> subst h <;> decide

/-- The mask length the code uses is the number written after the slash. -/
theorem ParseCIDR_mask_length {s : GoString} {ip : IP} {net : IPNet}
    (h : ParseCIDR s = .ok (ip, net)) :
    ∃ i, s.indexOf? 0x2f = some i ∧ (IPMaskSize net.Mask).1 = (dtoi (s.drop (i + 1))).1 := by
  unfold ParseCIDR at h
  dsimp only at h
  split at h
  · cases h
  rename_i i hi
  refine ⟨i, hi, ?_⟩
  split at h
  · cases h
  split at h
  · cases h
  rename_i hc
  split at h
  · cases h
  rename_i m hm
  split at h
  · cases h
  simp only [Except.ok.injEq, Prod.mk.injEq] at h
  obtain ⟨_, rfl⟩ := h
  simp only [not_or, not_lt, gt_iff_lt] at hc
  rw [IPMaskSize_CIDRMask _ hc.2.2 m hm]

/-- C10: for an IPv4 local subnet whose address part has all host bits zero and whose
mask length `n` is at most 30, the run follows the sequence of calls in which the
router address is the rendering of the network address plus one and the
management-port address the rendering of the network address plus two (the `lrp-add`
and the `gateway_ip` carry the first with `/n`, the route goes via the first, the port
`k8s-<node>` gets the second and the interface the second with `/n`). These two
addresses are what `NextIP` gives at lines 54 and 139; the second is the successor of
the first, they differ, both lie in the subnet, and neither is the network address or
the broadcast address. -/
theorem CreateManagementPort_network_plus_one_and_two {σ : Type} (W : World σ)
    (nodeName localSubnet clusterSubnet : GoString) (s : σ) (ip : IP) (net : IPNet)
    (hparse : goLib.ParseCIDR localSubnet = .ok (ip, net))
    (hn : (goLib.MaskSize net.Mask).1 ≤ 30)
    (hzero : addrValue ip % 2 ^ (32 - (goLib.MaskSize net.Mask).1) = 0) :
    (∃ a : Answers,
      FollowsCalls
        (provisioningCalls (goLib.ToLower nodeName) localSubnet clusterSubnet
          (IPString (hostAddress (addrValue ip) (goLib.MaskSize net.Mask).1 1))
          (IPString (hostAddress (addrValue ip) (goLib.MaskSize net.Mask).1 2))
          (itoa (goLib.MaskSize net.Mask).1) (itoa goLib.MTU)
          (interfaceNameOf (goLib.ToLower nodeName)) a)
        (interfaceNameOf (goLib.ToLower nodeName))
        (CreateManagementPort goLib W nodeName localSubnet clusterSubnet (start s)).1
        (CreateManagementPort goLib W nodeName localSubnet clusterSubnet (start s)).2.trace)
    ∧ goLib.NextIP ip = hostAddress (addrValue ip) (goLib.MaskSize net.Mask).1 1
    ∧ goLib.NextIP (goLib.NextIP ip)
        = hostAddress (addrValue ip) (goLib.MaskSize net.Mask).1 2
    ∧ addrValue (hostAddress (addrValue ip) (goLib.MaskSize net.Mask).1 1)
        = networkValue (addrValue ip) (goLib.MaskSize net.Mask).1 + 1
    ∧ addrValue (hostAddress (addrValue ip) (goLib.MaskSize net.Mask).1 2)
        = networkValue (addrValue ip) (goLib.MaskSize net.Mask).1 + 2
    ∧ addrValue (hostAddress (addrValue ip) (goLib.MaskSize net.Mask).1 2)
        = addrValue (hostAddress (addrValue ip) (goLib.MaskSize net.Mask).1 1) + 1
    ∧ hostAddress (addrValue ip) (goLib.MaskSize net.Mask).1 1
        ≠ hostAddress (addrValue ip) (goLib.MaskSize net.Mask).1 2
    ∧ inSubnet (addrValue ip) (goLib.MaskSize net.Mask).1
        (addrValue (hostAddress (addrValue ip) (goLib.MaskSize net.Mask).1 1))
    ∧ inSubnet (addrValue ip) (goLib.MaskSize net.Mask).1
        (addrValue (hostAddress (addrValue ip) (goLib.MaskSize net.Mask).1 2))
    ∧ addrValue (hostAddress (addrValue ip) (goLib.MaskSize net.Mask).1 1)
        ≠ networkValue (addrValue ip) (goLib.MaskSize net.Mask).1
    ∧ addrValue (hostAddress (addrValue ip) (goLib.MaskSize net.Mask).1 1)
        ≠ broadcastValue (addrValue ip) (goLib.MaskSize net.Mask).1
    ∧ addrValue (hostAddress (addrValue ip) (goLib.MaskSize net.Mask).1 2)
        ≠ networkValue (addrValue ip) (goLib.MaskSize net.Mask).1
    ∧ addrValue (hostAddress (addrValue ip) (goLib.MaskSize net.Mask).1 2)
        ≠ broadcastValue (addrValue ip) (goLib.MaskSize net.Mask).1 := by
  have haux := CreateManagementPort_calls_aux goLib W nodeName localSubnet clusterSubnet s ip
    net hparse
  obtain ⟨a, b, c, d, rfl⟩ := ParseCIDR_ok hparse
  have hv : addrValue (IPv4 a b c d) < 4294967296 := by
    simp only [addrValue, To4_IPv4]
    exact ipToInt_four_lt a b c d
  obtain ⟨hnet, hlt, hb⟩ := aligned_add_lt _ _ 2 hv hn hzero (le_refl 2)
  have h1 : goLib.NextIP (IPv4 a b c d) = intToIP 4 (addrValue (IPv4 a b c d) + 1) :=
    NextIP_of_To4 (To4_IPv4 a b c d)
  have hr : addrValue (intToIP 4 (addrValue (IPv4 a b c d) + 1))
      = addrValue (IPv4 a b c d) + 1 := addrValue_intToIP _ (by omega)
  have h2 : goLib.NextIP (intToIP 4 (addrValue (IPv4 a b c d) + 1))
      = intToIP 4 (addrValue (IPv4 a b c d) + 2) := by
    have := NextIP_of_To4 (To4_intToIP (addrValue (IPv4 a b c d) + 1))
    rw [hr] at this
    exact this
  have hm : addrValue (intToIP 4 (addrValue (IPv4 a b c d) + 2))
      = addrValue (IPv4 a b c d) + 2 := addrValue_intToIP _ (by omega)
  rw [h1, h2] at haux
  simp only [hostAddress, hnet]
  rw [h1, h2, hr, hm]
  generalize addrValue (IPv4 a b c d) = v at *
  generalize (goLib.MaskSize net.Mask).1 = n at *
  refine ⟨haux, rfl, rfl, rfl, rfl, by omega, ?_, ⟨?_, ?_⟩, ⟨?_, ?_⟩, ?_, ?_, ?_, ?_⟩
  · intro h
    have := congrArg addrValue h
    rw [hr, hm] at this
    omega
  all_goals omega

/-- C9: the run depends on the node name only through its lower-cased form: two node
names with the same lower-cased form give the same computation, hence the same calls,
the same log lines and the same result in every world. -/
theorem CreateManagementPort_lowercase_only {σ : Type} (L : Lib) (W : World σ)
    (nodeName nodeName1 localSubnet clusterSubnet : GoString)
    (h : L.ToLower nodeName1 = L.ToLower nodeName) :
    CreateManagementPort L W nodeName1 localSubnet clusterSubnet
      = CreateManagementPort L W nodeName localSubnet clusterSubnet := by
  unfold CreateManagementPort
  simp only [h]

/-- Lower-casing a lower-cased ASCII name changes nothing. -/
theorem ToLower_idempotent (s : GoString) : ToLower (ToLower s) = ToLower s := by
  unfold ToLower
  rw [List.map_map]
  refine List.map_congr_left fun b _ => ?_
  simp only [Function.comp]
  by_cases h : 0x41 ≤ b.toNat ∧ b.toNat ≤ 0x5a
  · have h2 : (b + 0x20).toNat = b.toNat + 32 := by
      rw [UInt8.toNat_add]
      have : (0x20 : UInt8).toNat = 32 := rfl
      rw [this]
      have hs : UInt8.size = 256 := rfl
      rw [hs]
      omega
    rw [if_pos h, if_neg]
    rw [h2]
    omega
  · rw [if_neg h, if_neg h]

/-! ## The properties at concrete inputs -/

/-- C1: the run on the local subnet `10.1.2.5/24`. The subnet parses, with network
`10.1.2.0/24`, whose first and second host addresses render as `10.1.2.1` and
`10.1.2.2`; yet the run, which returns no error, gives the router port the network
`10.1.2.6/24` and the switch the gateway `10.1.2.6/24`, the port `k8s-node-a` the
address `10.1.2.7`, the interface the address `10.1.2.7/24`, and routes via `10.1.2.6`:
the successors of the address as written, not of the network address. -/
theorem CreateManagementPort_unaligned_subnet :
    goLib.ParseCIDR (lit "10.1.2.5/24")
      = .ok (IPv4 10 1 2 5, ⟨[10, 1, 2, 0], [255, 255, 255, 0]⟩)
    ∧ (goLib.MaskSize [255, 255, 255, 0]).1 = 24
    ∧ IPString (hostAddress (addrValue (IPv4 10 1 2 5)) 24 1) = lit "10.1.2.1"
    ∧ IPString (hostAddress (addrValue (IPv4 10 1 2 5)) 24 2) = lit "10.1.2.2"
    ∧ (CreateManagementPort goLib quietWorld (lit "Node-A") (lit "10.1.2.5/24")
          (lit "10.1.0.0/16") (start ())).1 = none
    ∧ calls (CreateManagementPort goLib quietWorld (lit "Node-A") (lit "10.1.2.5/24")
          (lit "10.1.0.0/16") (start ())).2.trace
      = provisioningCalls (lit "node-a") (lit "10.1.2.5/24") (lit "10.1.0.0/16")
          (lit "10.1.2.6") (lit "10.1.2.7") (lit "24") (lit "1400") (lit "k8s-node-a")
          ⟨some (lit "router-1"), lit "0a:00:00:00:00:01", lit "aa:bb:cc:dd:ee:ff",
            lit "lb-tcp", lit "lb-udp"⟩
    ∧ Call.ovnNbctl [lit "--may-exist", lit "lrp-add", lit "router-1", lit "rtos-node-a",
        lit "0a:00:00:00:00:01", lit "10.1.2.6/24"]
      ∈ calls (CreateManagementPort goLib quietWorld (lit "Node-A") (lit "10.1.2.5/24")
          (lit "10.1.0.0/16") (start ())).2.trace
    ∧ Call.ovnNbctl [lit "--", lit "--may-exist", lit "ls-add", lit "node-a", lit "--",
        lit "set", lit "logical_switch", lit "node-a", lit "other-config:subnet=10.1.2.5/24",
        lit "external-ids:gateway_ip=10.1.2.6/24"]
      ∈ calls (CreateManagementPort goLib quietWorld (lit "Node-A") (lit "10.1.2.5/24")
          (lit "10.1.0.0/16") (start ())).2.trace
    ∧ Call.ovnNbctl [lit "--", lit "--may-exist", lit "lsp-add", lit "node-a",
        lit "k8s-node-a", lit "--", lit "lsp-set-addresses", lit "k8s-node-a",
        lit "aa:bb:cc:dd:ee:ff 10.1.2.7"]
      ∈ calls (CreateManagementPort goLib quietWorld (lit "Node-A") (lit "10.1.2.5/24")
          (lit "10.1.0.0/16") (start ())).2.trace
    ∧ Call.command (lit "ip") [lit "addr", lit "add", lit "10.1.2.7/24", lit "dev",
        lit "k8s-node-a"]
      ∈ calls (CreateManagementPort goLib quietWorld (lit "Node-A") (lit "10.1.2.5/24")
          (lit "10.1.0.0/16") (start ())).2.trace
    ∧ Call.command (lit "ip") [lit "route", lit "add", lit "10.1.0.0/16", lit "via",
        lit "10.1.2.6"]
      ∈ calls (CreateManagementPort goLib quietWorld (lit "Node-A") (lit "10.1.2.5/24")
          (lit "10.1.0.0/16") (start ())).2.trace :=
  ⟨rfl, by decide, by decide, by decide, by decide, by decide, by decide, by decide,
    by decide, by decide, by decide⟩

/-- C2, witness: in a world where the interface reports no MAC, the run of node
`Node-A` stops at the read of `mac_in_use`. -/
theorem CreateManagementPort_empty_mac_in_use_witness :
    (⟨macInUseRead (lit "k8s-node-a"), [], [], none⟩ : Event)
      ∈ (CreateManagementPort goLib noMacWorld (lit "Node-A") (lit "10.1.2.0/24")
          (lit "10.1.0.0/16") (start ())).2.trace
    ∧ (CreateManagementPort goLib noMacWorld (lit "Node-A") (lit "10.1.2.0/24")
          (lit "10.1.0.0/16") (start ())).1
        = some ⟨lit "Failed to get mac address of ovn-k8s-master"⟩
    ∧ (CreateManagementPort goLib noMacWorld (lit "Node-A") (lit "10.1.2.0/24")
          (lit "10.1.0.0/16") (start ())).2.trace.getLast?
        = some ⟨macInUseRead (lit "k8s-node-a"), [], [], none⟩
    ∧ ∀ e ∈ (CreateManagementPort goLib noMacWorld (lit "Node-A") (lit "10.1.2.0/24")
          (lit "10.1.0.0/16") (start ())).2.trace,
        ¬ followsMacRead (goLib.ToLower (lit "Node-A")) e.call :=
  ⟨by decide,
    CreateManagementPort_empty_mac_in_use goLib noMacWorld (lit "Node-A") (lit "10.1.2.0/24")
      (lit "10.1.0.0/16") () ⟨macInUseRead (lit "k8s-node-a"), [], [], none⟩ (by decide)
      (by decide) rfl rfl⟩

/-- C3, witness: in a world without a TCP cluster load balancer, the run of node
`Node-A` stops at the lookup of that load balancer. -/
theorem CreateManagementPort_empty_tcp_load_balancer_witness :
    (⟨loadBalancerFind (lit "external_ids:k8s-cluster-lb-tcp=yes"), [], [], none⟩ : Event)
      ∈ (CreateManagementPort goLib noLoadBalancerWorld (lit "Node-A") (lit "10.1.2.0/24")
          (lit "10.1.0.0/16") (start ())).2.trace
    ∧ (CreateManagementPort goLib noLoadBalancerWorld (lit "Node-A") (lit "10.1.2.0/24")
          (lit "10.1.0.0/16") (start ())).1
        = some ⟨lit "Failed to get k8sClusterLbTCP"⟩
    ∧ (CreateManagementPort goLib noLoadBalancerWorld (lit "Node-A") (lit "10.1.2.0/24")
          (lit "10.1.0.0/16") (start ())).2.trace.getLast?
        = some ⟨loadBalancerFind (lit "external_ids:k8s-cluster-lb-tcp=yes"), [], [], none⟩
    ∧ ∀ e ∈ (CreateManagementPort goLib noLoadBalancerWorld (lit "Node-A") (lit "10.1.2.0/24")
          (lit "10.1.0.0/16") (start ())).2.trace,
        ¬ followsTCPFind (goLib.ToLower (lit "Node-A")) e.call :=
  ⟨by decide,
    CreateManagementPort_empty_tcp_load_balancer goLib noLoadBalancerWorld (lit "Node-A")
      (lit "10.1.2.0/24") (lit "10.1.0.0/16") ()
      ⟨loadBalancerFind (lit "external_ids:k8s-cluster-lb-tcp=yes"), [], [], none⟩ (by decide)
      (by decide) rfl rfl⟩

/-- C4, witness: where the router port has the MAC `0a:00:00:00:00:07` the run issues
the sequence without generator, cluster router and `lrp-add`, and with that MAC for
`stor-node-a`; where it has none, the run issues the sequence with the generated MAC
`0a:00:00:00:00:01` in the `lrp-add` and for `stor-node-a`. -/
theorem CreateManagementPort_router_mac_witness :
    (calls (CreateManagementPort goLib provisionedWorld (lit "Node-A") (lit "10.1.2.0/24")
          (lit "10.1.0.0/16") (start ())).2.trace
        = provisioningCalls (lit "node-a") (lit "10.1.2.0/24") (lit "10.1.0.0/16")
            (lit "10.1.2.1") (lit "10.1.2.2") (lit "24") (lit "1400") (lit "k8s-node-a")
            ⟨none, lit "0a:00:00:00:00:07", lit "aa:bb:cc:dd:ee:ff", lit "lb-tcp", lit "lb-udp"⟩
      ∧ routerFacingPortAdd (lit "node-a") (lit "addresses=\"0a:00:00:00:00:07\"")
        ∈ calls (CreateManagementPort goLib provisionedWorld (lit "Node-A") (lit "10.1.2.0/24")
          (lit "10.1.0.0/16") (start ())).2.trace
      ∧ (∀ e ∈ (CreateManagementPort goLib provisionedWorld (lit "Node-A") (lit "10.1.2.0/24")
            (lit "10.1.0.0/16") (start ())).2.trace,
          ReusesRouterMac (lit "node-a") (lit "0a:00:00:00:00:07") e.call)
      ∧ ∃ mac T U,
          FollowsCalls
            (provisioningCalls (lit "node-a") (lit "10.1.2.0/24") (lit "10.1.0.0/16")
              (lit "10.1.2.1") (lit "10.1.2.2") (lit "24") (lit "1400") (lit "k8s-node-a")
              ⟨none, lit "0a:00:00:00:00:07", mac, T, U⟩)
            (lit "k8s-node-a")
            (CreateManagementPort goLib provisionedWorld (lit "Node-A") (lit "10.1.2.0/24")
              (lit "10.1.0.0/16") (start ())).1
            (CreateManagementPort goLib provisionedWorld (lit "Node-A") (lit "10.1.2.0/24")
              (lit "10.1.0.0/16") (start ())).2.trace)
    ∧ (calls (CreateManagementPort goLib quietWorld (lit "Node-A") (lit "10.1.2.0/24")
          (lit "10.1.0.0/16") (start ())).2.trace
        = provisioningCalls (lit "node-a") (lit "10.1.2.0/24") (lit "10.1.0.0/16")
            (lit "10.1.2.1") (lit "10.1.2.2") (lit "24") (lit "1400") (lit "k8s-node-a")
            ⟨some (lit "router-1"), lit "0a:00:00:00:00:01", lit "aa:bb:cc:dd:ee:ff",
              lit "lb-tcp", lit "lb-udp"⟩
      ∧ Call.ovnNbctl [lit "--may-exist", lit "lrp-add", lit "router-1", lit "rtos-node-a",
          lit "0a:00:00:00:00:01", lit "10.1.2.1/24"]
        ∈ calls (CreateManagementPort goLib quietWorld (lit "Node-A") (lit "10.1.2.0/24")
          (lit "10.1.0.0/16") (start ())).2.trace
      ∧ routerFacingPortAdd (lit "node-a") (lit "addresses=\"0a:00:00:00:00:01\"")
        ∈ calls (CreateManagementPort goLib quietWorld (lit "Node-A") (lit "10.1.2.0/24")
          (lit "10.1.0.0/16") (start ())).2.trace
      ∧ (∀ e ∈ (CreateManagementPort goLib quietWorld (lit "Node-A") (lit "10.1.2.0/24")
            (lit "10.1.0.0/16") (start ())).2.trace,
          UsesRouterMac (lit "node-a") (lit "0a:00:00:00:00:01") e.call)
      ∧ ∃ r mac T U,
          FollowsCalls
            (provisioningCalls (lit "node-a") (lit "10.1.2.0/24") (lit "10.1.0.0/16")
              (lit "10.1.2.1") (lit "10.1.2.2") (lit "24") (lit "1400") (lit "k8s-node-a")
              ⟨some r, lit "0a:00:00:00:00:01", mac, T, U⟩)
            (lit "k8s-node-a")
            (CreateManagementPort goLib quietWorld (lit "Node-A") (lit "10.1.2.0/24")
              (lit "10.1.0.0/16") (start ())).1
            (CreateManagementPort goLib quietWorld (lit "Node-A") (lit "10.1.2.0/24")
              (lit "10.1.0.0/16") (start ())).2.trace) :=
  ⟨⟨by decide, by decide,
      ((CreateManagementPort_router_mac goLib provisionedWorld (lit "Node-A")
        (lit "10.1.2.0/24") (lit "10.1.0.0/16") ()).1 (lit "0a:00:00:00:00:07") [] ()
        (by decide) (by decide)).1,
      ((CreateManagementPort_router_mac goLib provisionedWorld (lit "Node-A")
        (lit "10.1.2.0/24") (lit "10.1.0.0/16") ()).1 (lit "0a:00:00:00:00:07") [] ()
        (by decide) (by decide)).2 (IPv4 10 1 2 0) ⟨[10, 1, 2, 0], [255, 255, 255, 0]⟩ rfl⟩,
    ⟨by decide, by decide, by decide,
      ((CreateManagementPort_router_mac goLib quietWorld (lit "Node-A") (lit "10.1.2.0/24")
        (lit "10.1.0.0/16") ()).2 [] () (by decide)).1,
      ((CreateManagementPort_router_mac goLib quietWorld (lit "Node-A") (lit "10.1.2.0/24")
        (lit "10.1.0.0/16") ()).2 [] () (by decide)).2 (IPv4 10 1 2 0)
        ⟨[10, 1, 2, 0], [255, 255, 255, 0]⟩ rfl⟩⟩

/-- C5, witness: the run for the 22-byte node name `Worker-Node-0123456789` follows the
sequence of calls with the 15-byte interface `k8s-worker-node`, and issues all of it in
a world where every call succeeds; the run for `Node-A` issues the sequence with the
interface `k8s-node-a`. -/
theorem CreateManagementPort_interface_name_witness :
    (∃ a : Answers,
      FollowsCalls
        (provisioningCalls (lit "worker-node-0123456789") (lit "10.1.2.0/24")
          (lit "10.1.0.0/16") (lit "10.1.2.1") (lit "10.1.2.2") (lit "24") (lit "1400")
          (lit "k8s-worker-node") a)
        (lit "k8s-worker-node")
        (CreateManagementPort goLib quietWorld (lit "Worker-Node-0123456789")
          (lit "10.1.2.0/24") (lit "10.1.0.0/16") (start ())).1
        (CreateManagementPort goLib quietWorld (lit "Worker-Node-0123456789")
          (lit "10.1.2.0/24") (lit "10.1.0.0/16") (start ())).2.trace)
    ∧ calls (CreateManagementPort goLib quietWorld (lit "Worker-Node-0123456789")
          (lit "10.1.2.0/24") (lit "10.1.0.0/16") (start ())).2.trace
      = provisioningCalls (lit "worker-node-0123456789") (lit "10.1.2.0/24")
          (lit "10.1.0.0/16") (lit "10.1.2.1") (lit "10.1.2.2") (lit "24") (lit "1400")
          (lit "k8s-worker-node")
          ⟨some (lit "router-1"), lit "0a:00:00:00:00:01", lit "aa:bb:cc:dd:ee:ff",
            lit "lb-tcp", lit "lb-udp"⟩
    ∧ (lit "k8s-worker-node").length = 15
    ∧ calls (CreateManagementPort goLib quietWorld (lit "Node-A") (lit "10.1.2.0/24")
          (lit "10.1.0.0/16") (start ())).2.trace
      = provisioningCalls (lit "node-a") (lit "10.1.2.0/24") (lit "10.1.0.0/16")
          (lit "10.1.2.1") (lit "10.1.2.2") (lit "24") (lit "1400") (lit "k8s-node-a")
          ⟨some (lit "router-1"), lit "0a:00:00:00:00:01", lit "aa:bb:cc:dd:ee:ff",
            lit "lb-tcp", lit "lb-udp"⟩ := by
  obtain ⟨name, _, h2, _, h4⟩ := CreateManagementPort_interface_name goLib quietWorld
    (lit "Worker-Node-0123456789") (lit "10.1.2.0/24") (lit "10.1.0.0/16") ()
    (IPv4 10 1 2 0) ⟨[10, 1, 2, 0], [255, 255, 255, 0]⟩ rfl
  have hname : name = lit "k8s-worker-node" := (h2 (by decide)).trans (by decide)
  subst hname
  exact ⟨h4, by decide, by decide, by decide⟩

/-- C8, counterexample: when `ip link set k8s-node-a up` fails with "exit status 1" the
run returns exactly that error and logs nothing, and it returns the very same error
when it is `ip route add` that fails: the error says nothing of the operation. -/
theorem CreateManagementPort_error_not_annotated :
    (CreateManagementPort goLib
        (hostFailureWorld [lit "link", lit "set", lit "k8s-node-a", lit "up"])
        (lit "Node-A") (lit "10.1.2.0/24") (lit "10.1.0.0/16") (start ())).1
      = some ⟨lit "exit status 1"⟩
    ∧ (CreateManagementPort goLib
        (hostFailureWorld [lit "link", lit "set", lit "k8s-node-a", lit "up"])
        (lit "Node-A") (lit "10.1.2.0/24") (lit "10.1.0.0/16") (start ())).2.logs = []
    ∧ (CreateManagementPort goLib
        (hostFailureWorld [lit "route", lit "add", lit "10.1.0.0/16", lit "via", lit "10.1.2.1"])
        (lit "Node-A") (lit "10.1.2.0/24") (lit "10.1.0.0/16") (start ())).1
      = some ⟨lit "exit status 1"⟩
    ∧ (CreateManagementPort goLib
        (hostFailureWorld [lit "route", lit "add", lit "10.1.0.0/16", lit "via", lit "10.1.2.1"])
        (lit "Node-A") (lit "10.1.2.0/24") (lit "10.1.0.0/16") (start ())).2.logs = [] := by
  decide

/-- C9, witness: `node-a` and `Node-A` have the same lower-cased form, and give the same
computation. -/
theorem CreateManagementPort_lowercase_only_witness :
    goLib.ToLower (lit "node-a") = goLib.ToLower (lit "Node-A")
    ∧ goLib.ToLower (lit "Node-A") = lit "node-a"
    ∧ CreateManagementPort goLib quietWorld (lit "node-a") (lit "10.1.2.0/24") (lit "10.1.0.0/16")
      = CreateManagementPort goLib quietWorld (lit "Node-A") (lit "10.1.2.0/24")
          (lit "10.1.0.0/16") :=
  ⟨by decide, by decide,
    CreateManagementPort_lowercase_only goLib quietWorld (lit "Node-A") (lit "node-a")
      (lit "10.1.2.0/24") (lit "10.1.0.0/16") (by decide)⟩

/-- C10, witness: for `10.1.2.0/24` the run follows, and in a world where every call
succeeds issues, the sequence of calls with the router address `10.1.2.1` and the
management-port address `10.1.2.2`, the network address `10.1.2.0` plus one and two. -/
theorem CreateManagementPort_network_plus_one_and_two_witness :
    goLib.ParseCIDR (lit "10.1.2.0/24")
      = .ok (IPv4 10 1 2 0, ⟨[10, 1, 2, 0], [255, 255, 255, 0]⟩)
    ∧ (∃ a : Answers,
      FollowsCalls
        (provisioningCalls (lit "node-a") (lit "10.1.2.0/24") (lit "10.1.0.0/16")
          (lit "10.1.2.1") (lit "10.1.2.2") (lit "24") (lit "1400") (lit "k8s-node-a") a)
        (lit "k8s-node-a")
        (CreateManagementPort goLib quietWorld (lit "Node-A") (lit "10.1.2.0/24")
          (lit "10.1.0.0/16") (start ())).1
        (CreateManagementPort goLib quietWorld (lit "Node-A") (lit "10.1.2.0/24")
          (lit "10.1.0.0/16") (start ())).2.trace)
    ∧ calls (CreateManagementPort goLib quietWorld (lit "Node-A") (lit "10.1.2.0/24")
          (lit "10.1.0.0/16") (start ())).2.trace
      = provisioningCalls (lit "node-a") (lit "10.1.2.0/24") (lit "10.1.0.0/16")
          (lit "10.1.2.1") (lit "10.1.2.2") (lit "24") (lit "1400") (lit "k8s-node-a")
          ⟨some (lit "router-1"), lit "0a:00:00:00:00:01", lit "aa:bb:cc:dd:ee:ff",
            lit "lb-tcp", lit "lb-udp"⟩
    ∧ hostAddress (addrValue (IPv4 10 1 2 0)) 24 1 = [10, 1, 2, 1]
    ∧ hostAddress (addrValue (IPv4 10 1 2 0)) 24 2 = [10, 1, 2, 2]
    ∧ addrValue (hostAddress (addrValue (IPv4 10 1 2 0)) 24 1)
        = networkValue (addrValue (IPv4 10 1 2 0)) 24 + 1
    ∧ addrValue (hostAddress (addrValue (IPv4 10 1 2 0)) 24 2)
        = networkValue (addrValue (IPv4 10 1 2 0)) 24 + 2 :=
  ⟨rfl,
    (CreateManagementPort_network_plus_one_and_two quietWorld (lit "Node-A")
      (lit "10.1.2.0/24") (lit "10.1.0.0/16") () (IPv4 10 1 2 0)
      ⟨[10, 1, 2, 0], [255, 255, 255, 0]⟩ rfl (by decide) (by decide)).1,
    by decide, by decide, by decide,
    (CreateManagementPort_network_plus_one_and_two quietWorld (lit "Node-A")
      (lit "10.1.2.0/24") (lit "10.1.0.0/16") () (IPv4 10 1 2 0)
      ⟨[10, 1, 2, 0], [255, 255, 255, 0]⟩ rfl (by decide) (by decide)).2.2.2.1,
    (CreateManagementPort_network_plus_one_and_two quietWorld (lit "Node-A")
      (lit "10.1.2.0/24") (lit "10.1.0.0/16") () (IPv4 10 1 2 0)
      ⟨[10, 1, 2, 0], [255, 255, 255, 0]⟩ rfl (by decide) (by decide)).2.2.2.2.1⟩

/-- C7, witness: when `ip addr add` is the first command to fail, the result is its
error and exactly the first three commands were issued. -/
theorem configureManagementPort_order_and_abort_witness :
    (configureManagementPort
        (hostFailureWorld [lit "addr", lit "add", lit "10.1.2.2/24", lit "dev", lit "k8s-node-a"])
        (lit "node-a") (lit "10.1.0.0/16") (lit "10.1.2.1") (lit "k8s-node-a")
        (lit "10.1.2.2/24") (start ())).1 = some ⟨lit "exit status 1"⟩
    ∧ (configureManagementPort
        (hostFailureWorld [lit "addr", lit "add", lit "10.1.2.2/24", lit "dev", lit "k8s-node-a"])
        (lit "node-a") (lit "10.1.0.0/16") (lit "10.1.2.1") (lit "k8s-node-a")
        (lit "10.1.2.2/24") (start ())).2.trace.map Event.call
      = [.command (lit "ip") [lit "link", lit "set", lit "k8s-node-a", lit "up"],
          .command (lit "ip") [lit "addr", lit "flush", lit "dev", lit "k8s-node-a"],
          .command (lit "ip") [lit "addr", lit "add", lit "10.1.2.2/24", lit "dev",
            lit "k8s-node-a"]] := by
  have h := (configureManagementPort_order_and_abort
    (hostFailureWorld [lit "addr", lit "add", lit "10.1.2.2/24", lit "dev", lit "k8s-node-a"])
    (lit "node-a") (lit "10.1.0.0/16") (lit "10.1.2.1") (lit "k8s-node-a")
    (lit "10.1.2.2/24") (start ())).1 2 ⟨lit "exit status 1"⟩ (by decide) (by decide) (by decide)
  refine ⟨h.1, ?_⟩
  rw [h.2.1]
  decide

/-! ## Running twice over the model of the external state -/

theorem stripPrefix_append (p x : GoString) : stripPrefix p (p ++ x) = some x := by
  simp [stripPrefix]

theorem stripPrefix_type_router : stripPrefix (lit "type=") (lit "type=router") = some (lit "router") := by
  decide

theorem stripPrefix_type_internal :
    stripPrefix (lit "type=") (lit "type=internal") = some (lit "internal") := by
  decide

theorem stripPrefix_router_port (x : GoString) :
    stripPrefix (lit "options:router-port=") (lit "options:router-port=rtos-" ++ x)
      = some (lit "rtos-" ++ x) := by
  have h : lit "options:router-port=rtos-" = lit "options:router-port=" ++ lit "rtos-" := by decide
  rw [h, List.append_assoc, stripPrefix_append]

theorem stripPrefix_iface_id (x : GoString) :
    stripPrefix (lit "external-ids:iface-id=") (lit "external-ids:iface-id=k8s-" ++ x)
      = some (lit "k8s-" ++ x) := by
  have h : lit "external-ids:iface-id=k8s-" = lit "external-ids:iface-id=" ++ lit "k8s-" := by
    decide
  rw [h, List.append_assoc, stripPrefix_append]

theorem stor_ne_k8s (x : GoString) : lit "stor-" ++ x ≠ lit "k8s-" ++ x := by
  intro h
  have h1 := congrArg List.head? h
  have a : List.head? (lit "stor-" ++ x) = some 115 := rfl
  have b : List.head? (lit "k8s-" ++ x) = some 107 := rfl
  rw [a, b] at h1
  exact absurd h1 (by decide)

/-! ### What the tools do with the commands of management-port.go

The equations are closed by `Eq.trans rfl rfl`, so that they are used as rewrite rules
where `lit` is sealed. -/

theorem nbctl_get_mac (p : GoString) (s : ExtState) :
    nbctl [lit "--if-exist", lit "get", lit "logical_router_port", p, lit "mac"] s
      = ((routerPortMac p s, [], none), s) :=
  Eq.trans rfl rfl

theorem nbctl_lrp_add (r p m n : GoString) (s : ExtState) :
    nbctl [lit "--may-exist", lit "lrp-add", r, p, m, n] s = reply [] (lrpAdd r p m n s) s :=
  Eq.trans rfl rfl

theorem nbctl_ls_add (sw sw2 c g : GoString) (s : ExtState) :
    nbctl [lit "--", lit "--may-exist", lit "ls-add", sw, lit "--", lit "set", lit "logical_switch",
      sw2, c, g] s = reply [] (lsAddSet sw sw2 c g s) s :=
  Eq.trans rfl rfl

theorem nbctl_lsp_add_set (sw p p2 a b c : GoString) (s : ExtState) :
    nbctl [lit "--", lit "--may-exist", lit "lsp-add", sw, p, lit "--", lit "set",
      lit "logical_switch_port", p2, a, b, c] s = reply [] (lspAddSetRouter sw p p2 a b c s) s :=
  Eq.trans rfl rfl

theorem nbctl_lsp_add_addresses (sw p p2 a : GoString) (s : ExtState) :
    nbctl [lit "--", lit "--may-exist", lit "lsp-add", sw, p, lit "--", lit "lsp-set-addresses",
      p2, a] s = reply [] (lspAddSetAddresses sw p p2 a s) s :=
  Eq.trans rfl rfl

theorem nbctl_find (tag : GoString) (s : ExtState) :
    nbctl [lit "--data=bare", lit "--no-heading", lit "--columns=_uuid", lit "find",
      lit "load_balancer", tag] s = ((findLoadBalancer tag s, [], none), s) :=
  Eq.trans rfl rfl

theorem nbctl_set_lb (sw a : GoString) (s : ExtState) :
    nbctl [lit "set", lit "logical_switch", sw, a] s = reply [] (setLoadBalancer sw a s) s :=
  Eq.trans rfl rfl

theorem nbctl_add_lb (sw v : GoString) (s : ExtState) :
    nbctl [lit "add", lit "logical_switch", sw, lit "load_balancer", v] s
      = reply [] (addLoadBalancer sw v s) s :=
  Eq.trans rfl rfl

theorem vsctl_add_br (br : GoString) (s : ExtState) :
    vsctl [lit "--", lit "--may-exist", lit "add-br", br] s
      = (([], [], none), { s with bridges := Function.update s.bridges br true }) :=
  Eq.trans rfl rfl

theorem vsctl_add_port (br p i a b c : GoString) (s : ExtState) :
    vsctl [lit "--", lit "--may-exist", lit "add-port", br, p, lit "--", lit "set", lit "interface",
      i, a, b, c] s = reply [] (addPortSet br p i a b c s) s :=
  Eq.trans rfl rfl

theorem vsctl_get_mac (i : GoString) (s : ExtState) :
    vsctl [lit "--if-exists", lit "get", lit "interface", i, lit "mac_in_use"] s
      = ((interfaceMac i s, [], none), s) :=
  Eq.trans rfl rfl

theorem ip_command (args : List GoString) (s : ExtState) :
    extWorld.CombinedOutput (lit "ip") args s
      = (match ipCommand args s with
          | some s1 => (([], none), s1)
          | none => ((lit "error", some exitFailure), s)) :=
  Eq.trans rfl rfl

theorem ip_link_up (x : GoString) (s : ExtState) :
    ipCommand [lit "link", lit "set", x, lit "up"] s
      = (if (s.interfaces x).isSome = true
          then some { s with linkUp := Function.update s.linkUp x true }
          else none) :=
  Eq.trans rfl rfl

theorem ip_addr_flush (x : GoString) (s : ExtState) :
    ipCommand [lit "addr", lit "flush", lit "dev", x] s
      = (if (s.interfaces x).isSome = true
          then some { s with addrs := Function.update s.addrs x [] }
          else none) :=
  Eq.trans rfl rfl

theorem ip_addr_add (a x : GoString) (s : ExtState) :
    ipCommand [lit "addr", lit "add", a, lit "dev", x] s
      = (if (s.interfaces x).isSome = true ∧ a ∉ s.addrs x
          then some { s with addrs := Function.update s.addrs x (s.addrs x ++ [a]) }
          else none) :=
  Eq.trans rfl rfl

theorem ip_route_flush (c : GoString) (s : ExtState) :
    ipCommand [lit "route", lit "flush", c] s
      = some { s with routes := s.routes.filter fun r => decide (r.1 ≠ c) } :=
  Eq.trans rfl rfl

theorem ip_route_add (c g : GoString) (s : ExtState) :
    ipCommand [lit "route", lit "add", c, lit "via", g] s
      = (if ∀ r ∈ s.routes, r.1 ≠ c
          then some { s with routes := s.routes ++ [(c, g)] }
          else none) :=
  Eq.trans rfl rfl

theorem ext_GenerateMac (s : ExtState) :
    extWorld.GenerateMac s = (freshMac s.macCounter, { s with macCounter := s.macCounter + 1 }) :=
  Eq.trans rfl rfl

theorem ext_GetK8sClusterRouter (s : ExtState) :
    extWorld.GetK8sClusterRouter s
      = (match s.clusterRouter with
          | some r => ((r, none), s)
          | none => (([], some exitFailure), s)) :=
  Eq.trans rfl rfl

theorem ext_RunOVNNbctl : extWorld.RunOVNNbctl = nbctl :=
  Eq.trans rfl rfl

theorem ext_RunOVSVsctl : extWorld.RunOVSVsctl = vsctl :=
  Eq.trans rfl rfl

/-! ### The two outcomes of a command -/

theorem reply_cases {out : GoString} {r : Option ExtState} {s : ExtState} {o se : GoString}
    {e : Option GoError} {s1 : ExtState} (h : reply out r s = ((o, se, e), s1)) :
    (r = some s1 ∧ o = out ∧ se = [] ∧ e = none) ∨ (r = none ∧ e = some exitFailure ∧ s1 = s) := by
  cases r with
  | none => right; simp only [reply, Prod.mk.injEq] at h; exact ⟨rfl, h.1.2.2.symm, h.2.symm⟩
  | some s2 =>
    left; simp only [reply, Prod.mk.injEq] at h
    exact ⟨by rw [h.2], h.1.1.symm, h.1.2.1.symm, h.1.2.2.symm⟩

theorem ip_cases {args : List GoString} {s : ExtState} {o : GoString} {e : Option GoError}
    {s1 : ExtState} (h : extWorld.CombinedOutput (lit "ip") args s = ((o, e), s1)) :
    (ipCommand args s = some s1 ∧ o = [] ∧ e = none)
      ∨ (ipCommand args s = none ∧ e = some exitFailure ∧ s1 = s) := by
  rw [ip_command] at h
  cases hc : ipCommand args s with
  | none => right; rw [hc] at h; simp only [Prod.mk.injEq] at h; exact ⟨rfl, h.1.2.symm, h.2.symm⟩
  | some s2 =>
    left; rw [hc] at h; simp only [Prod.mk.injEq] at h
    exact ⟨by rw [h.2], h.1.1.symm, h.1.2.symm⟩

theorem cluster_router_cases {s : ExtState} {o : GoString} {e : Option GoError} {s1 : ExtState}
    (h : extWorld.GetK8sClusterRouter s = ((o, e), s1)) :
    (s.clusterRouter = some o ∧ e = none ∧ s1 = s)
      ∨ (s.clusterRouter = none ∧ e = some exitFailure ∧ s1 = s) := by
  rw [ext_GetK8sClusterRouter] at h
  cases hc : s.clusterRouter with
  | none => right; rw [hc] at h; simp only [Prod.mk.injEq] at h; exact ⟨rfl, h.1.2.symm, h.2.symm⟩
  | some r =>
    left; rw [hc] at h; simp only [Prod.mk.injEq] at h
    exact ⟨by rw [h.1.1], h.1.2.symm, h.2.symm⟩

theorem freshMac_ne_nil (n : Nat) : freshMac n ≠ [] := by
  simp [freshMac]

section ExternalState

seal lit

/-- A run from a settled state succeeds and leaves the state as it is. -/
theorem CreateManagementPort_settled_fixed (L : Lib) (nodeName localSubnet clusterSubnet : GoString)
    (s : ExtState) (h : Settled L nodeName localSubnet clusterSubnet s) :
    (CreateManagementPort L extWorld nodeName localSubnet clusterSubnet (start s)).1 = none
      ∧ (CreateManagementPort L extWorld nodeName localSubnet clusterSubnet (start s)).2.world
          = s := by
  obtain ⟨ip, net, hp, ⟨rp, hrp, hmac, hstor⟩, hsw, htcp, hudp, hbr,
    ⟨i, hif, hib, hit, him, hii, himac, lp, hk8s, hlsw, hladdr⟩, hup, haddrs, hroutes⟩ := h
  refine (wp_iff (CreateManagementPort L extWorld nodeName localSubnet clusterSubnet)
    (fun res r => res = none ∧ r.world = s) (start s)).1 ?_
  have hI : (start s).world = s := rfl
  generalize start s = r at hI
  obtain ⟨w, t, l⟩ := r
  simp only at hI
  subst hI
  unfold CreateManagementPort configureManagementPort
  rw [hp]
  dsimp only
  have hne := stor_ne_k8s (L.ToLower nodeName)
  repeat' first
    | rw [wp_bind]
    | rw [wp_pure]
    | (rw [wp_ite]; refine ⟨fun hfail => ?_, fun hok => ?_⟩ <;>
        try (first
          | exact absurd rfl hfail
          | exact absurd hfail hmac
          | exact absurd hfail himac
          | exact absurd hfail htcp
          | exact absurd hfail hudp))
    | (rw [wp_RunOVNNbctl]; dsimp only; intro out serr err w1 t1 hw ht; clear ht
       rw [ext_RunOVNNbctl] at hw
       simp [nbctl_get_mac, nbctl_lrp_add, nbctl_ls_add, nbctl_lsp_add_set, nbctl_lsp_add_addresses,
         nbctl_find, nbctl_set_lb, nbctl_add_lb, reply, routerPortMac, lrpAdd, lsAddSet, lspAdd, lspAddAllowed,
         lspAddSetRouter, lspAddSetAddresses, findLoadBalancer, setLoadBalancer, addLoadBalancer,
         stripPrefix_append, stripPrefix_type_router, stripPrefix_router_port, lit_udp_ne_tcp,
         hrp, hsw, hstor, hk8s, hne, hne.symm, hlsw] at hw
       obtain ⟨⟨rfl, rfl, rfl⟩, rfl⟩ := hw)
    | (rw [wp_RunOVSVsctl]; dsimp only; intro out serr err w1 t1 hw ht; clear ht
       rw [ext_RunOVSVsctl] at hw
       simp [vsctl_add_br, vsctl_add_port, vsctl_get_mac, reply, addPortSet, interfaceMac,
         stripPrefix_append, stripPrefix_type_internal, stripPrefix_iface_id,
         hbr, hif, hib] at hw
       obtain ⟨⟨rfl, rfl, rfl⟩, rfl⟩ := hw)
    | (rw [wp_execCombinedOutput]; dsimp only; intro out err w1 t1 hw ht; clear ht
       rw [ip_command] at hw
       simp [ip_link_up, ip_addr_flush, ip_addr_add, ip_route_flush, ip_route_add, hif] at hw
       obtain ⟨⟨rfl, rfl⟩, rfl⟩ := hw)
    | (rw [wp_logrusErrorf]; dsimp only)
  refine ⟨rfl, ?_⟩
  cases lp
  cases i
  cases w
  simp only at hrp hsw hstor hk8s hbr hif hup haddrs hroutes htcp hudp hib hit him hii hlsw hladdr
  subst hib hit him hii hlsw hladdr
  simp only [ExtState.mk.injEq, true_and, and_true]
  refine ⟨?_, ?_, ?_, ?_, ?_, ?_, ?_⟩
  · funext k
    by_cases h1 : k = L.ToLower nodeName
    · subst h1; simp [hsw]
    · simp [Function.update_noteq h1]
  · funext k
    by_cases h1 : k = lit "k8s-" ++ L.ToLower nodeName
    · subst h1; simp [hk8s]
    · by_cases h2 : k = lit "stor-" ++ L.ToLower nodeName
      · subst h2; simp [hstor, Function.update_noteq h1]
      · simp [Function.update_noteq h1, Function.update_noteq h2]
  · funext k
    by_cases h1 : k = lit "br-int"
    · subst h1; simp [hbr]
    · simp [Function.update_noteq h1]
  · funext k
    by_cases h1 : k = interfaceNameOf (L.ToLower nodeName)
    · subst h1; simp [hif]
    · simp [Function.update_noteq h1]
  · funext k
    by_cases h1 : k = interfaceNameOf (L.ToLower nodeName)
    · subst h1; simp [hup]
    · simp [Function.update_noteq h1]
  · funext k
    by_cases h1 : k = interfaceNameOf (L.ToLower nodeName)
    · subst h1; simp [haddrs]
    · simp [Function.update_noteq h1]
  · simpa using hroutes

/-- A run that succeeds leaves a settled state. -/
theorem CreateManagementPort_settles (L : Lib) (nodeName localSubnet clusterSubnet : GoString)
    (s : ExtState)
    (h : (CreateManagementPort L extWorld nodeName localSubnet clusterSubnet (start s)).1 = none) :
    Settled L nodeName localSubnet clusterSubnet
      (CreateManagementPort L extWorld nodeName localSubnet clusterSubnet (start s)).2.world := by
  revert h
  refine (wp_iff (CreateManagementPort L extWorld nodeName localSubnet clusterSubnet)
    (fun res r => res = none → Settled L nodeName localSubnet clusterSubnet r.world) (start s)).1 ?_
  have hI : (start s).world = s := rfl
  generalize start s = r at hI
  obtain ⟨w, t, l⟩ := r
  simp only at hI
  subst hI
  unfold CreateManagementPort configureManagementPort
  cases hp : L.ParseCIDR localSubnet with
  | error e => dsimp only; rw [wp_pure]; intro h; cases h
  | ok v =>
  obtain ⟨ip, net⟩ := v
  dsimp only
  have hne := stor_ne_k8s (L.ToLower nodeName)
  rw [wp_bind]
  rw [wp_RunOVNNbctl]; dsimp only; intro out serr err w1 t1 hw ht; clear ht
  rw [ext_RunOVNNbctl, nbctl_get_mac] at hw
  cases hw
  rw [wp_ite]
  refine ⟨fun hfail => absurd rfl hfail, fun _ => ?_⟩
  rcases hrtos : w.routerPorts (lit "rtos-" ++ L.ToLower nodeName) with _ | ⟨r0, m0, n0⟩ <;>
    simp only [routerPortMac, hrtos]
  on_goal 2 => rcases m0 with _ | ⟨c, m0⟩
  all_goals first
    | rw [if_pos rfl]
    | rw [if_pos trivial]
    | rw [if_neg (List.cons_ne_nil _ _)]
    | rw [if_neg not_false]
  repeat' first
    | rw [wp_bind]
    | rw [wp_pure]
    | (rw [wp_ite]; refine ⟨fun hfail => ?_, fun hok => ?_⟩ <;>
        try (first
          | exact absurd rfl hfail
          | exact absurd (Option.some_ne_none _) hok))
    | (rw [wp_RunOVNNbctl]; dsimp only; intro out serr err w1 t1 hw ht; clear ht
       rw [ext_RunOVNNbctl] at hw
       first
        | (rw [nbctl_find] at hw
           simp [findLoadBalancer, lit_udp_ne_tcp] at hw
           obtain ⟨⟨rfl, rfl, rfl⟩, rfl⟩ := hw)
        | (simp only [nbctl_lrp_add, nbctl_ls_add, nbctl_lsp_add_set, nbctl_lsp_add_addresses,
             nbctl_set_lb, nbctl_add_lb] at hw
           rcases reply_cases hw with ⟨hs, rfl, rfl, rfl⟩ | ⟨hs, rfl, rfl⟩ <;> clear hw
           on_goal 1 =>
             simp [lrpAdd, lsAddSet, lspAdd, lspAddSetRouter, lspAddSetAddresses, setLoadBalancer,
               addLoadBalancer, addPortSet, lspAddAllowed, stripPrefix_append, stripPrefix_type_router,
               stripPrefix_router_port, stripPrefix_type_internal, stripPrefix_iface_id, ip_link_up,
               ip_addr_flush, ip_addr_add, ip_route_flush, ip_route_add, freshMac_ne_nil, hrtos, hne,
              hne.symm] at hs <;>
             first
               | subst hs
               | (obtain ⟨hc, rfl⟩ := hs)
               | (obtain ⟨hc, hc2, rfl⟩ := hs)
               | (obtain ⟨hc, hc2, hc3, rfl⟩ := hs)))
    | (rw [wp_RunOVSVsctl]; dsimp only; intro out serr err w1 t1 hw ht; clear ht
       rw [ext_RunOVSVsctl] at hw
       first
        | (rw [vsctl_get_mac] at hw
           simp [interfaceMac] at hw
           obtain ⟨⟨rfl, rfl, rfl⟩, rfl⟩ := hw)
        | (rw [vsctl_add_br] at hw; simp only [Prod.mk.injEq] at hw
           obtain ⟨⟨rfl, rfl, rfl⟩, rfl⟩ := hw)
        | (simp only [vsctl_add_port] at hw
           rcases reply_cases hw with ⟨hs, rfl, rfl, rfl⟩ | ⟨hs, rfl, rfl⟩ <;> clear hw
           on_goal 1 =>
             simp [lrpAdd, lsAddSet, lspAdd, lspAddSetRouter, lspAddSetAddresses, setLoadBalancer,
               addLoadBalancer, addPortSet, lspAddAllowed, stripPrefix_append, stripPrefix_type_router,
               stripPrefix_router_port, stripPrefix_type_internal, stripPrefix_iface_id, ip_link_up,
               ip_addr_flush, ip_addr_add, ip_route_flush, ip_route_add, freshMac_ne_nil, hrtos, hne,
              hne.symm] at hs <;>
             first
               | subst hs
               | (obtain ⟨hc, rfl⟩ := hs)
               | (obtain ⟨hc, hc2, rfl⟩ := hs)
               | (obtain ⟨hc, hc2, hc3, rfl⟩ := hs)))
    | (rw [wp_execCombinedOutput]; dsimp only; intro out err w1 t1 hw ht; clear ht
       rcases ip_cases hw with ⟨hs, rfl, rfl⟩ | ⟨hs, rfl, rfl⟩ <;> clear hw
       on_goal 1 =>
             simp [lrpAdd, lsAddSet, lspAdd, lspAddSetRouter, lspAddSetAddresses, setLoadBalancer,
               addLoadBalancer, addPortSet, lspAddAllowed, stripPrefix_append, stripPrefix_type_router,
               stripPrefix_router_port, stripPrefix_type_internal, stripPrefix_iface_id, ip_link_up,
               ip_addr_flush, ip_addr_add, ip_route_flush, ip_route_add, freshMac_ne_nil, hrtos, hne,
              hne.symm] at hs <;>
             first
               | subst hs
               | (obtain ⟨hc, rfl⟩ := hs)
               | (obtain ⟨hc, hc2, rfl⟩ := hs)
               | (obtain ⟨hc, hc2, hc3, rfl⟩ := hs))
    | (rw [wp_GenerateMac]; dsimp only; intro mac w1 t1 hw ht; clear ht
       rw [ext_GenerateMac] at hw; cases hw)
    | (rw [wp_GetK8sClusterRouter]; dsimp only; intro out err w1 t1 hw ht; clear ht
       rcases cluster_router_cases hw with ⟨hs, rfl, rfl⟩ | ⟨hs, rfl, rfl⟩ <;> clear hw)
    | (rw [wp_logrusErrorf]; dsimp only)
  all_goals try (intro h; cases h; done)
  all_goals
    intro _
    refine ⟨ip, net, hp, ?_⟩
    dsimp only
    cases hi : w.interfaces (interfaceNameOf (L.ToLower nodeName)) <;>
    cases hk : w.switchPorts (lit "k8s-" ++ L.ToLower nodeName) <;>
    cases hst : w.switchPorts (lit "stor-" ++ L.ToLower nodeName) <;>
    simp [hi, hk, hst, hne, Ne.symm hne, freshMac_ne_nil] <;>
    simp_all

end ExternalState

/-- C6: over the model `extWorld` of the control-plane database, the virtual switch and
the host kernel, if a run of `CreateManagementPort` succeeds, then a second run with the
same arguments, started in the state the first run left, succeeds as well and leaves
that state as it is. -/
theorem CreateManagementPort_idempotent (L : Lib) (nodeName localSubnet clusterSubnet : GoString)
    (s : ExtState)
    (h : (CreateManagementPort L extWorld nodeName localSubnet clusterSubnet (start s)).1 = none) :
    (CreateManagementPort L extWorld nodeName localSubnet clusterSubnet
        (start (CreateManagementPort L extWorld nodeName localSubnet clusterSubnet
          (start s)).2.world)).1 = none
    ∧ (CreateManagementPort L extWorld nodeName localSubnet clusterSubnet
        (start (CreateManagementPort L extWorld nodeName localSubnet clusterSubnet
          (start s)).2.world)).2.world
      = (CreateManagementPort L extWorld nodeName localSubnet clusterSubnet (start s)).2.world :=
  CreateManagementPort_settled_fixed L nodeName localSubnet clusterSubnet _
    (CreateManagementPort_settles L nodeName localSubnet clusterSubnet s h)

/-- The first run really changes `freshState`: afterwards the bridge exists, the
interface `k8s-node-a` is up with the address `10.1.2.2/24`, the route to `10.1.0.0/16`
goes via `10.1.2.1`, and the switch `node-a` has both load balancers. -/
theorem CreateManagementPort_provisions_freshState :
    freshState.bridges (lit "br-int") = false
    ∧ (CreateManagementPort goLib extWorld (lit "Node-A") (lit "10.1.2.0/24") (lit "10.1.0.0/16")
        (start freshState)).2.world.bridges (lit "br-int") = true
    ∧ (CreateManagementPort goLib extWorld (lit "Node-A") (lit "10.1.2.0/24") (lit "10.1.0.0/16")
        (start freshState)).2.world.linkUp (lit "k8s-node-a") = true
    ∧ (CreateManagementPort goLib extWorld (lit "Node-A") (lit "10.1.2.0/24") (lit "10.1.0.0/16")
        (start freshState)).2.world.addrs (lit "k8s-node-a") = [lit "10.1.2.2/24"]
    ∧ (CreateManagementPort goLib extWorld (lit "Node-A") (lit "10.1.2.0/24") (lit "10.1.0.0/16")
        (start freshState)).2.world.routes = [(lit "10.1.0.0/16", lit "10.1.2.1")]
    ∧ ((CreateManagementPort goLib extWorld (lit "Node-A") (lit "10.1.2.0/24") (lit "10.1.0.0/16")
        (start freshState)).2.world.switches (lit "node-a")).map (fun sw => sw.loadBalancer)
        = some [lit "lb-tcp", lit "lb-udp"]
    ∧ ((CreateManagementPort goLib extWorld (lit "Node-A") (lit "10.1.2.0/24") (lit "10.1.0.0/16")
        (start freshState)).2.world.routerPorts (lit "rtos-node-a")).map (fun rp => rp.mac)
        = some (freshMac 0) := by
  decide

/-- C6, witness: on `freshState`, for the node `Node-A` with the subnets `10.1.2.0/24`
and `10.1.0.0/16`, the first run succeeds, and so does the second, without changing the
state. -/
theorem CreateManagementPort_idempotent_witness :
    (CreateManagementPort goLib extWorld (lit "Node-A") (lit "10.1.2.0/24") (lit "10.1.0.0/16")
        (start freshState)).1 = none
    ∧ (CreateManagementPort goLib extWorld (lit "Node-A") (lit "10.1.2.0/24") (lit "10.1.0.0/16")
        (start (CreateManagementPort goLib extWorld (lit "Node-A") (lit "10.1.2.0/24")
          (lit "10.1.0.0/16") (start freshState)).2.world)).1 = none
    ∧ (CreateManagementPort goLib extWorld (lit "Node-A") (lit "10.1.2.0/24") (lit "10.1.0.0/16")
        (start (CreateManagementPort goLib extWorld (lit "Node-A") (lit "10.1.2.0/24")
          (lit "10.1.0.0/16") (start freshState)).2.world)).2.world
      = (CreateManagementPort goLib extWorld (lit "Node-A") (lit "10.1.2.0/24") (lit "10.1.0.0/16")
          (start freshState)).2.world :=
  ⟨by decide,
    CreateManagementPort_idempotent goLib (lit "Node-A") (lit "10.1.2.0/24") (lit "10.1.0.0/16")
      freshState (by decide)⟩

end OvnManagementPort
